import Mathlib

/-!
Verification development for the rexif EXIF parsing library.

The Rust sources are shallowly embedded in Lean 4:
* bytes are `Nat` (callers keep them below 256, as `u8` does in Rust);
* `u16`/`u32` values are `Nat`; `i8`/`i16`/`i32` values are `Int`;
* `Vec<u8>` and slices are `List Nat`;
* fallible code (Rust panics) is modelled with `Option`;
* `f32`/`f64` values obtained by reinterpreting raw bytes are kept as their
  IEEE-754 bit patterns (`Nat`); the sources themselves transmute raw bytes
  (`lowlevel.rs`, with a FIXME noting the portability assumption), and the
  byte order of the transmute is modelled as little-endian, matching the
  usual host;
* `f64` arithmetic performed on rational values (`URational::value` and
  friends) is modelled with exact rational arithmetic over `ℚ`; this is
  exact whenever the mathematical value is exactly representable in binary64
  and the computation stays within range, which covers every concrete input
  appearing in the theorems below.  Division by zero yields `0` in `ℚ`
  where IEEE would yield an infinity or NaN; no theorem below depends on a
  zero denominator.
-/

/-! ## lowlevel.rs — fixed-width scalar and array readers -/

/-- Model of `lowlevel.rs read_i8`: convert u8 to i8 by sign extension. -/
def read_i8 (raw : Nat) : Int :=
  if (raw : Int) ≥ 0x80 then (raw : Int) - 0x100 else (raw : Int)

/-- Model of `lowlevel.rs read_u16`: two bytes, endianness per the flag. -/
def read_u16 (le : Bool) (raw : List Nat) : Nat :=
  if le then
    (raw.getD 1 0) * 256 + raw.getD 0 0
  else
    (raw.getD 0 0) * 256 + raw.getD 1 0

/-- Model of `lowlevel.rs read_i16`: unsigned read, then sign correction. -/
def read_i16 (le : Bool) (raw : List Nat) : Int :=
  let u : Int := read_u16 le raw
  if u ≥ 0x8000 then u - 0x10000 else u

/-- Model of `lowlevel.rs read_u32`: four bytes, endianness per the flag. -/
def read_u32 (le : Bool) (raw : List Nat) : Nat :=
  if le then
    ((raw.getD 3 0) <<< 24) + ((raw.getD 2 0) <<< 16) +
    ((raw.getD 1 0) <<< 8) + raw.getD 0 0
  else
    ((raw.getD 0 0) <<< 24) + ((raw.getD 1 0) <<< 16) +
    ((raw.getD 2 0) <<< 8) + raw.getD 3 0

/-- Model of `lowlevel.rs read_i32`: unsigned read, then sign correction. -/
def read_i32 (le : Bool) (raw : List Nat) : Int :=
  let u : Int := read_u32 le raw
  if u ≥ 0x80000000 then u - 0x100000000 else u

/-- Model of `lowlevel.rs read_f32`: the source copies four bytes and
transmutes them into an `f32`.  The result is kept as the 32-bit IEEE-754
bit pattern, assembled least-significant byte first (little-endian host,
see the FIXME in the source). -/
def read_f32 (raw : List Nat) : Nat :=
  raw.getD 0 0 + ((raw.getD 1 0) <<< 8) + ((raw.getD 2 0) <<< 16) +
  ((raw.getD 3 0) <<< 24)

/-- Model of `lowlevel.rs read_f64`: eight bytes transmuted into an `f64`,
kept as the 64-bit IEEE-754 bit pattern (little-endian host). -/
def read_f64 (raw : List Nat) : Nat :=
  raw.getD 0 0 + ((raw.getD 1 0) <<< 8) + ((raw.getD 2 0) <<< 16) +
  ((raw.getD 3 0) <<< 24) + ((raw.getD 4 0) <<< 32) + ((raw.getD 5 0) <<< 40) +
  ((raw.getD 6 0) <<< 48) + ((raw.getD 7 0) <<< 56)

/-! ## rational.rs — unsigned and signed rationals -/

/-- Model of the `rational.rs URational` struct (u32 numerator/denominator). -/
structure URational where
  numerator : Nat
  denominator : Nat
  deriving DecidableEq, Repr

/-- Model of `URational::value`: numerator divided by denominator.  The Rust
code performs the division in `f64`; here it is exact division in `ℚ`
(exact whenever the quotient is representable in binary64; `d = 0` gives `0`
in `ℚ` where IEEE gives inf/NaN). -/
def URational.value (r : URational) : ℚ :=
  Rat.divInt (r.numerator : Int) (r.denominator : Int)

/-- Model of the `Display` impl for `URational`: "numerator/denominator". -/
def URational.toDisplay (r : URational) : String :=
  toString r.numerator ++ "/" ++ toString r.denominator

/-- Model of the `rational.rs IRational` struct (i32 numerator/denominator). -/
structure IRational where
  numerator : Int
  denominator : Int
  deriving DecidableEq, Repr

/-- Model of `IRational::value`, with the same `ℚ` reading as
`URational.value`. -/
def IRational.value (r : IRational) : ℚ :=
  Rat.divInt r.numerator r.denominator

/-- Model of the `Display` impl for `IRational`. -/
def IRational.toDisplay (r : IRational) : String :=
  toString r.numerator ++ "/" ++ toString r.denominator

/-- Model of `lowlevel.rs read_urational`: numerator then denominator,
each a 32-bit read. -/
def read_urational (le : Bool) (raw : List Nat) : URational :=
  { numerator := read_u32 le (raw.take 4)
    denominator := read_u32 le ((raw.drop 4).take 4) }

/-- Model of `lowlevel.rs read_irational`. -/
def read_irational (le : Bool) (raw : List Nat) : IRational :=
  { numerator := read_i32 le (raw.take 4)
    denominator := read_i32 le ((raw.drop 4).take 4) }

/-- Common shape of the nine array readers in `lowlevel.rs`: each one loops
`count` times, reads one element at the running offset and advances the
offset by the element stride.  The Rust sources are nine copies of this
loop; they are instantiated below with their stride and element reader. -/
def read_array (stride : Nat) (rd : List Nat → α) : Nat → Nat → List Nat → List α
  | 0, _, _ => []
  | n + 1, offset, raw => rd (raw.drop offset) :: read_array stride rd n (offset + stride) raw

/-- Model of `lowlevel.rs read_i8_array`. -/
def read_i8_array (count : Nat) (raw : List Nat) : List Int :=
  read_array 1 (fun l => read_i8 (l.getD 0 0)) count 0 raw

/-- Model of `lowlevel.rs read_u16_array`. -/
def read_u16_array (le : Bool) (count : Nat) (raw : List Nat) : List Nat :=
  read_array 2 (read_u16 le) count 0 raw

/-- Model of `lowlevel.rs read_i16_array`. -/
def read_i16_array (le : Bool) (count : Nat) (raw : List Nat) : List Int :=
  read_array 2 (read_i16 le) count 0 raw

/-- Model of `lowlevel.rs read_u32_array`. -/
def read_u32_array (le : Bool) (count : Nat) (raw : List Nat) : List Nat :=
  read_array 4 (read_u32 le) count 0 raw

/-- Model of `lowlevel.rs read_i32_array`. -/
def read_i32_array (le : Bool) (count : Nat) (raw : List Nat) : List Int :=
  read_array 4 (read_i32 le) count 0 raw

/-- Model of `lowlevel.rs read_f32_array` (elements kept as bit patterns). -/
def read_f32_array (count : Nat) (raw : List Nat) : List Nat :=
  read_array 4 read_f32 count 0 raw

/-- Model of `lowlevel.rs read_f64_array` (elements kept as bit patterns). -/
def read_f64_array (count : Nat) (raw : List Nat) : List Nat :=
  read_array 8 read_f64 count 0 raw

/-- Model of `lowlevel.rs read_urational_array`. -/
def read_urational_array (le : Bool) (count : Nat) (raw : List Nat) : List URational :=
  read_array 8 (read_urational le) count 0 raw

/-- Model of `lowlevel.rs read_irational_array`. -/
def read_irational_array (le : Bool) (count : Nat) (raw : List Nat) : List IRational :=
  read_array 8 (read_irational le) count 0 raw

/-! ## types.rs — formats, IFD entries, tag values -/

/-- Model of the `types.rs IfdFormat` enumeration. -/
inductive IfdFormat where
  | Unknown
  | U8
  | Ascii
  | U16
  | U32
  | URational
  | I8
  | Undefined
  | I16
  | I32
  | IRational
  | F32
  | F64
  deriving DecidableEq, Repr

/-- Numeric code of each `IfdFormat` item (the Rust enumeration
discriminants, produced by casting the enum to `u16`). -/
def IfdFormat.code : IfdFormat → Nat
  | .Unknown => 0
  | .U8 => 1
  | .Ascii => 2
  | .U16 => 3
  | .U32 => 4
  | .URational => 5
  | .I8 => 6
  | .Undefined => 7
  | .I16 => 8
  | .I32 => 9
  | .IRational => 10
  | .F32 => 11
  | .F64 => 12

/-- Model of `types_impl.rs IfdFormat::new`: numeric format code to
enumeration, unrecognized codes map to `Unknown`. -/
def IfdFormat.new (n : Nat) : IfdFormat :=
  match n with
  | 1 => .U8
  | 2 => .Ascii
  | 3 => .U16
  | 4 => .U32
  | 5 => .URational
  | 6 => .I8
  | 7 => .Undefined
  | 8 => .I16
  | 9 => .I32
  | 10 => .IRational
  | 11 => .F32
  | 12 => .F64
  | _ => .Unknown

/-- Free-function spelling used by the `tiff.rs` revision
(`ifdformat_new`); same mapping as `IfdFormat.new`. -/
def ifdformat_new (n : Nat) : IfdFormat :=
  IfdFormat.new n

/-- Model of `types_impl.rs IfdFormat::size`: size in bytes of one element
of the format. -/
def IfdFormat.size : IfdFormat → Nat
  | .U8 => 1
  | .Ascii => 1
  | .U16 => 2
  | .U32 => 4
  | .URational => 8
  | .I8 => 1
  | .Undefined => 1
  | .I16 => 2
  | .I32 => 4
  | .IRational => 8
  | .F32 => 4
  | .F64 => 8
  | .Unknown => 1

/-- Model of the `types.rs IfdEntry` struct.  The `namespace` field declared
in `types.rs` is omitted: none of the functions modelled here reads it, and
the `tiff.rs` revision constructs entries without it. -/
structure IfdEntry where
  tag : Nat
  format : IfdFormat
  count : Nat
  data : List Nat
  ifd_data : List Nat
  ext_data : List Nat
  le : Bool
  deriving DecidableEq, Repr

/-- Model of the `types.rs TagValue` enumeration.  `F32`/`F64` elements are
IEEE-754 bit patterns (see the module comment).  `Invalid` carries raw
data, endianness, the declared format code (u16) and the declared count. -/
inductive TagValue where
  | U8 (v : List Nat)
  | Ascii (s : String)
  | U16 (v : List Nat)
  | U32 (v : List Nat)
  | URational (v : List URational)
  | I8 (v : List Int)
  | Undefined (v : List Nat) (le : Bool)
  | I16 (v : List Int)
  | I32 (v : List Int)
  | IRational (v : List IRational)
  | F32 (v : List Nat)
  | F64 (v : List Nat)
  | Unknown (v : List Nat) (le : Bool)
  | Invalid (v : List Nat) (le : Bool) (fmt : Nat) (count : Nat)
  deriving DecidableEq, Repr

/-! ## Models of the Rust string conversions used by the decoders -/

/-- Replacement character U+FFFD used by the lossy string decoders. -/
def replChar : Char := Char.ofNat 0xFFFD

/-- Continuation byte test for UTF-8 decoding. -/
def utf8Cont (c : Nat) : Prop := 0x80 ≤ c ∧ c ≤ 0xBF

instance (c : Nat) : Decidable (utf8Cont c) := by
  unfold utf8Cont; infer_instance

/-- Model of UTF-8 decoding with lossy replacement, as performed by
`String::from_utf8_lossy`: well-formed sequences decode to their scalar
value, ill-formed bytes become U+FFFD. -/
def utf8LossyChars : List Nat → List Char
  | [] => []
  | b :: rest =>
    if b < 0x80 then Char.ofNat b :: utf8LossyChars rest
    else if 0xC2 ≤ b ∧ b ≤ 0xDF then
      match rest with
      | [] => [replChar]
      | c1 :: rest1 =>
        if utf8Cont c1 then
          Char.ofNat ((b - 0xC0) * 0x40 + (c1 - 0x80)) :: utf8LossyChars rest1
        else
          replChar :: utf8LossyChars (c1 :: rest1)
    else if 0xE0 ≤ b ∧ b ≤ 0xEF then
      -- three-byte sequences; the first continuation range depends on b
      let lo1 : Nat := if b = 0xE0 then 0xA0 else 0x80
      let hi1 : Nat := if b = 0xED then 0x9F else 0xBF
      match rest with
      | [] => [replChar]
      | c1 :: rest1 =>
        if lo1 ≤ c1 ∧ c1 ≤ hi1 then
          match rest1 with
          | [] => [replChar]
          | c2 :: rest2 =>
            if utf8Cont c2 then
              Char.ofNat ((b - 0xE0) * 0x1000 + (c1 - 0x80) * 0x40 + (c2 - 0x80)) ::
                utf8LossyChars rest2
            else
              replChar :: utf8LossyChars (c2 :: rest2)
        else
          replChar :: utf8LossyChars (c1 :: rest1)
    else if 0xF0 ≤ b ∧ b ≤ 0xF4 then
      -- four-byte sequences; the first continuation range depends on b
      let lo1 : Nat := if b = 0xF0 then 0x90 else 0x80
      let hi1 : Nat := if b = 0xF4 then 0x8F else 0xBF
      match rest with
      | [] => [replChar]
      | c1 :: rest1 =>
        if lo1 ≤ c1 ∧ c1 ≤ hi1 then
          match rest1 with
          | [] => [replChar]
          | c2 :: rest2 =>
            if utf8Cont c2 then
              match rest2 with
              | [] => [replChar]
              | c3 :: rest3 =>
                if utf8Cont c3 then
                  Char.ofNat ((b - 0xF0) * 0x40000 + (c1 - 0x80) * 0x1000 +
                    (c2 - 0x80) * 0x40 + (c3 - 0x80)) :: utf8LossyChars rest3
                else
                  replChar :: utf8LossyChars (c3 :: rest3)
            else
              replChar :: utf8LossyChars (c2 :: rest2)
        else
          replChar :: utf8LossyChars (c1 :: rest1)
    else
      -- stray continuation byte, overlong lead (C0/C1) or out of range (F5..FF)
      replChar :: utf8LossyChars rest

/-- Model of `String::from_utf8_lossy` followed by `into_owned`. -/
def from_utf8_lossy (v : List Nat) : String :=
  String.mk (utf8LossyChars v)

/-- Model of UTF-16 decoding with lossy replacement
(`String::from_utf16_lossy`): surrogate pairs combine, unpaired surrogates
become U+FFFD. -/
def utf16LossyChars : List Nat → List Char
  | [] => []
  | u :: rest =>
    if u < 0xD800 ∨ 0xE000 ≤ u then Char.ofNat u :: utf16LossyChars rest
    else if u ≤ 0xDBFF then
      match rest with
      | [] => [replChar]
      | u2 :: rest2 =>
        if 0xDC00 ≤ u2 ∧ u2 ≤ 0xDFFF then
          Char.ofNat (0x10000 + (u - 0xD800) * 0x400 + (u2 - 0xDC00)) ::
            utf16LossyChars rest2
        else
          replChar :: utf16LossyChars (u2 :: rest2)
    else
      replChar :: utf16LossyChars rest

/-- Model of `String::from_utf16_lossy`. -/
def from_utf16_lossy (v : List Nat) : String :=
  String.mk (utf16LossyChars v)

/-! ## Models of Rust numeric formatting -/

/-- Rounding to the nearest integer with ties to even, as used by Rust
fixed-precision float formatting. -/
def roundHalfEven (q : ℚ) : Int :=
  let f : Int := q.floor
  let r2 : Int := 2 * (q.num - f * (q.den : Int))
  if r2 < (q.den : Int) then f
  else if (q.den : Int) < r2 then f + 1
  else if f % 2 = 0 then f else f + 1

/-- Left-pad a string with zeros up to the given width. -/
def padZeros (width : Nat) (s : String) : String :=
  String.mk (List.replicate (width - s.length) '0') ++ s

/-- Model of the Rust format specifier with fixed precision, as in
`{:.1}` applied to an `f64`: round to `prec` decimal places (ties to even)
and print with exactly `prec` digits after the point (no point when
`prec = 0`).  The argument is the exact rational model of the float. -/
def fmtFixed (prec : Nat) (q : ℚ) : String :=
  let neg : Bool := q.num < 0
  let sign : String := if neg then "-" else ""
  let m : ℚ := if neg then -q else q
  let scaled : Int := roundHalfEven (Rat.divInt (m.num * ((10 ^ prec : Nat) : Int)) (m.den : Int))
  let ip : Int := scaled / ((10 ^ prec : Nat) : Int)
  let fp : Int := scaled % ((10 ^ prec : Nat) : Int)
  if prec = 0 then sign ++ toString ip
  else sign ++ toString ip ++ "." ++ padZeros prec (toString fp.natAbs)

/-- Model of a zero-padded fixed-precision Rust format specifier such as
`{:02.0}` or `{:04.1}`: format with `fmtFixed`, then left-pad with zeros
to the minimum width. -/
def fmtFixedPad (width prec : Nat) (q : ℚ) : String :=
  padZeros width (fmtFixed prec q)

/-- Smallest exponent k ≤ 64 such that d divides 10 ^ k, if any: d has one
exactly when the fraction n / d has a terminating decimal expansion with at
most 64 digits. -/
def decExponent (d : Nat) : Option Nat :=
  (List.range 65).find? (fun k => 10 ^ k % d = 0)

/-- Strip trailing zero characters (used when printing terminating decimal
expansions without trailing zeros, as Rust float Display does). -/
def stripTrailingZeroChars (s : List Char) : List Char :=
  (s.reverse.dropWhile (· = '0')).reverse

/-- Model of the Rust `Display` formatting of an `f64` (`{}` with no
precision), applied to the exact rational model of the float: integers
print without a decimal point, other terminating decimal expansions print
with trailing zeros stripped.  Rust prints the shortest decimal string that
round-trips through the binary64 value; for values whose exact expansion
is short (all concrete values appearing in this development) the two
agree.  Non-terminating rationals are printed to 17 decimal places; no
theorem below depends on that case. -/
def f64Display (q : ℚ) : String :=
  let neg : Bool := q.num < 0
  let sign : String := if neg then "-" else ""
  let m : ℚ := if neg then -q else q
  let n : Int := m.num
  let d : Nat := m.den
  match decExponent d with
  | some 0 => sign ++ toString n
  | some k =>
      let digits : Int := n * (((10 ^ k : Nat) / d : Nat) : Int)
      let ip : Int := digits / ((10 ^ k : Nat) : Int)
      let fp : Int := digits % ((10 ^ k : Nat) : Int)
      let fracDigits := stripTrailingZeroChars (padZeros k (toString fp.natAbs)).data
      if fracDigits.isEmpty then sign ++ toString ip
      else sign ++ toString ip ++ "." ++ String.mk fracDigits
  | none => sign ++ fmtFixed 17 m

/-- Display of one `f32` element held as its IEEE-754 bit pattern, used by
the crude string rendering of `F32` arrays: decodes sign, exponent and
mantissa and prints the value (infinities and NaN print as Rust does).
The decimal rendering of finite values goes through `f64Display` and
carries the approximation documented there. -/
def f32BitsDisplay (b : Nat) : String :=
  let s := b / 0x80000000 % 2
  let e := b / 0x800000 % 0x100
  let m := b % 0x800000
  if e = 0xFF then
    if m = 0 then (if s = 1 then "-inf" else "inf") else "NaN"
  else
    let mag : ℚ :=
      if e = 0 then Rat.divInt (m : Int) ((2 ^ 149 : Nat) : Int)
      else Rat.divInt (((0x800000 + m) * 2 ^ e : Nat) : Int) ((2 ^ 150 : Nat) : Int)
    f64Display (if s = 1 then -mag else mag)

/-- Display of one `f64` element held as its IEEE-754 bit pattern
(analogous to `f32BitsDisplay`). -/
def f64BitsDisplay (b : Nat) : String :=
  let s := b / 0x8000000000000000 % 2
  let e := b / 0x10000000000000 % 0x800
  let m := b % 0x10000000000000
  if e = 0x7FF then
    if m = 0 then (if s = 1 then "-inf" else "inf") else "NaN"
  else
    let mag : ℚ :=
      if e = 0 then Rat.divInt (m : Int) ((2 ^ 1074 : Nat) : Int)
      else Rat.divInt (((0x10000000000000 + m) * 2 ^ e : Nat) : Int) ((2 ^ 1075 : Nat) : Int)
    f64Display (if s = 1 then -mag else mag)

/-! ## ifdformat.rs — crude string rendering and the tag value decoder -/

/-- Model of `ifdformat.rs numarray_to_string`, generic over the element
Display implementation (passed explicitly as `disp`): empty vector prints
as the empty string, a single element prints alone, several elements are
joined with ", ". -/
def numarray_to_string (disp : α → String) : List α → String
  | [] => ""
  | ns => String.intercalate ", " (ns.map disp)

/-- Model of the `to_csv.rs` ToCsv trait impl (itertools join with ", ");
it produces the same strings as `numarray_to_string`. -/
def to_csv (disp : α → String) (ns : List α) : String :=
  String.intercalate ", " (ns.map disp)

/-- Model of the trailing-NUL-stripping while loop in the `Ascii` arm of
the tag value decoder: starting from `tot = data.length`, decrement `tot`
while the byte before position `tot` is zero. -/
def ascii_trim_len (data : List Nat) : Nat → Nat
  | 0 => 0
  | t + 1 => if data.getD t 0 = 0 then ascii_trim_len data t else t + 1

/-- Model of `ifdformat.rs tag_value_new`: convert an `IfdEntry` into a
`TagValue` and a crude string representation.  Each fixed-width arm first
checks that the raw data covers `count` elements and yields `Invalid`
otherwise.  (`types_impl.rs TagValue::new` is the same decoder without the
string component.) -/
def tag_value_new (f : IfdEntry) : TagValue × String :=
  match f.format with
  | .Ascii =>
      let tot := ascii_trim_len f.data f.data.length
      let s := from_utf8_lossy (f.data.take tot)
      (TagValue.Ascii s, s)
  | .U16 =>
      if f.data.length < f.count * 2 then
        (TagValue.Invalid f.data f.le (IfdFormat.U16).code f.count, "Invalid")
      else
        let a := read_u16_array f.le f.count f.data
        (TagValue.U16 a, numarray_to_string toString a)
  | .I16 =>
      if f.data.length < f.count * 2 then
        (TagValue.Invalid f.data f.le (IfdFormat.I16).code f.count, "Invalid")
      else
        let a := read_i16_array f.le f.count f.data
        (TagValue.I16 a, numarray_to_string toString a)
  | .U8 =>
      if f.data.length < f.count * 1 then
        (TagValue.Invalid f.data f.le (IfdFormat.U8).code f.count, "Invalid")
      else
        let a := f.data
        (TagValue.U8 a, numarray_to_string toString a)
  | .I8 =>
      if f.data.length < f.count * 1 then
        (TagValue.Invalid f.data f.le (IfdFormat.I8).code f.count, "Invalid")
      else
        let a := read_i8_array f.count f.data
        (TagValue.I8 a, numarray_to_string toString a)
  | .U32 =>
      if f.data.length < f.count * 4 then
        (TagValue.Invalid f.data f.le (IfdFormat.U32).code f.count, "Invalid")
      else
        let a := read_u32_array f.le f.count f.data
        (TagValue.U32 a, numarray_to_string toString a)
  | .I32 =>
      if f.data.length < f.count * 4 then
        (TagValue.Invalid f.data f.le (IfdFormat.I32).code f.count, "Invalid")
      else
        let a := read_i32_array f.le f.count f.data
        (TagValue.I32 a, numarray_to_string toString a)
  | .F32 =>
      if f.data.length < f.count * 4 then
        (TagValue.Invalid f.data f.le (IfdFormat.F32).code f.count, "Invalid")
      else
        let a := read_f32_array f.count f.data
        (TagValue.F32 a, numarray_to_string f32BitsDisplay a)
  | .F64 =>
      if f.data.length < f.count * 8 then
        (TagValue.Invalid f.data f.le (IfdFormat.F64).code f.count, "Invalid")
      else
        let a := read_f64_array f.count f.data
        (TagValue.F64 a, numarray_to_string f64BitsDisplay a)
  | .URational =>
      if f.data.length < f.count * 8 then
        (TagValue.Invalid f.data f.le (IfdFormat.URational).code f.count, "Invalid")
      else
        let a := read_urational_array f.le f.count f.data
        (TagValue.URational a, numarray_to_string URational.toDisplay a)
  | .IRational =>
      if f.data.length < f.count * 8 then
        (TagValue.Invalid f.data f.le (IfdFormat.IRational).code f.count, "Invalid")
      else
        let a := read_irational_array f.le f.count f.data
        (TagValue.IRational a, numarray_to_string IRational.toDisplay a)
  | .Undefined =>
      let a := f.data
      (TagValue.Undefined a f.le, numarray_to_string toString a)
  | .Unknown =>
      (TagValue.Unknown f.data f.le, "<unknown blob>")

/-- Model of the `fmt::Display` impl for `TagValue` in `types_impl.rs`
(comma-space joined element displays via `to_csv`). -/
def TagValue.toDisplay : TagValue → String
  | .Ascii s => s
  | .U16 a => to_csv toString a
  | .I16 a => to_csv toString a
  | .U8 a => to_csv toString a
  | .I8 a => to_csv toString a
  | .U32 a => to_csv toString a
  | .I32 a => to_csv toString a
  | .F32 a => to_csv f32BitsDisplay a
  | .F64 a => to_csv f64BitsDisplay a
  | .URational a => to_csv URational.toDisplay a
  | .IRational a => to_csv IRational.toDisplay a
  | .Undefined a _ => to_csv toString a
  | .Unknown _ _ => "<unknown blob>"
  | .Invalid _ _ _ _ => "Invalid"

/-! ## exifreadable.rs — value renderers

Each renderer is a pure function from a tag value to a readable string.
The `panic!(INV)` arms of the sources (reached when the renderer is invoked
on a variant it does not expect, including out-of-range indexing of the
element vector) are modelled with `none`.  The registry in `exif.rs`
declares a renderer type with a second string parameter; the renderer
implementations present in the tree (`exifreadable.rs`) take only the tag
value, and are modelled as such. -/

/-- Renderer type: tag value to readable string, `none` models a panic. -/
def Renderer := TagValue → Option String

/-- Model of `exifreadable.rs nop` (Display of the tag value; used only by
the catch-all registry row). -/
def nop : Renderer :=
  fun e => some e.toDisplay

/-- Model of `exifreadable.rs strpass` (Display of the tag value). -/
def strpass : Renderer :=
  fun e => some e.toDisplay

/-- Model of `exifreadable.rs orientation`. -/
def orientation : Renderer := fun e =>
  match e with
  | .U16 (n :: _) =>
      match n with
      | 1 => some "Straight"
      | 3 => some "Upside down"
      | 6 => some "Rotated to left"
      | 8 => some "Rotated to right"
      | 9 => some "Undefined"
      | _ => some ("Unknown (" ++ toString n ++ ")")
  | _ => none

/-- Model of `exifreadable.rs rational_value` (Display of the f64 value of
the first element). -/
def rational_value : Renderer := fun e =>
  match e with
  | .URational (r :: _) => some (f64Display r.value)
  | .IRational (r :: _) => some (f64Display r.value)
  | _ => none

/-- Model of `exifreadable.rs rational_values` (all element values joined). -/
def rational_values : Renderer := fun e =>
  match e with
  | .URational v => some (numarray_to_string f64Display (v.map URational.value))
  | _ => none

/-- Model of `exifreadable.rs resolution_unit`. -/
def resolution_unit : Renderer := fun e =>
  match e with
  | .U16 (n :: _) =>
      match n with
      | 1 => some "Unitless"
      | 2 => some "in"
      | 3 => some "cm"
      | _ => some ("Unknown (" ++ toString n ++ ")")
  | _ => none

/-- Model of `exifreadable.rs exposure_time`: the traditional 1/x fraction
when the numerator is 1 and denominator exceeds 1; otherwise a reciprocal
with 0 or 1 decimals when the value is below 0.1 or 1.0; otherwise the
value itself with 1 decimal. -/
def exposure_time : Renderer := fun e =>
  match e with
  | .URational (r :: _) =>
      if r.numerator = 1 ∧ r.denominator > 1 then
        some (r.toDisplay ++ " s")
      else if r.value < mkRat 1 10 then
        some ("1/" ++ fmtFixed 0 (Rat.divInt (r.value.den : Int) r.value.num) ++ " s")
      else if r.value < mkRat 1 1 then
        some ("1/" ++ fmtFixed 1 (Rat.divInt (r.value.den : Int) r.value.num) ++ " s")
      else
        some (fmtFixed 1 r.value ++ " s")
  | _ => none

/-- Model of `exifreadable.rs f_number`. -/
def f_number : Renderer := fun e =>
  match e with
  | .URational (r :: _) => some ("f/" ++ fmtFixed 1 r.value)
  | _ => none

/-- Model of `exifreadable.rs exposure_program`. -/
def exposure_program : Renderer := fun e =>
  match e with
  | .U16 (n :: _) =>
      match n with
      | 1 => some "Manual control"
      | 2 => some "Program control"
      | 3 => some "Aperture priority"
      | 4 => some "Shutter priority"
      | 5 => some "Program creative (slow program)"
      | 6 => some "Program creative (high-speed program)"
      | 7 => some "Portrait mode"
      | 8 => some "Landscape mode"
      | _ => some ("Unknown (" ++ toString n ++ ")")
  | _ => none

/-- Model of `exifreadable.rs focal_length`. -/
def focal_length : Renderer := fun e =>
  match e with
  | .URational (r :: _) => some (f64Display r.value ++ " mm")
  | _ => none

/-- Model of `exifreadable.rs focal_length_35`. -/
def focal_length_35 : Renderer := fun e =>
  match e with
  | .U16 (n :: _) => some (toString n ++ " mm")
  | _ => none

/-- Model of `exifreadable.rs meters`. -/
def meters : Renderer := fun e =>
  match e with
  | .URational (r :: _) => some (fmtFixed 1 r.value ++ " m")
  | _ => none

/-- Model of `exifreadable.rs iso_speeds`. -/
def iso_speeds : Renderer := fun e =>
  match e with
  | .U16 v =>
      match v with
      | [a] => some ("ISO " ++ toString a)
      | [a, b] => some ("ISO " ++ toString a ++ " latitude " ++ toString b)
      | [a, b, _] => some ("ISO " ++ toString a ++ " latitude " ++ toString b)
      | _ => some ("Unknown (" ++ numarray_to_string toString v ++ ")")
  | _ => none

/-- Model of `exifreadable.rs dms` (degree/minute/second triplet, three
output shapes depending on which denominators are 1). -/
def dms : Renderer := fun e =>
  match e with
  | .URational (deg :: mn :: sec :: _) =>
      if deg.denominator = 1 ∧ mn.denominator = 1 then
        some (f64Display deg.value ++ "°" ++ f64Display mn.value ++ "\x27" ++
          fmtFixed 2 sec.value ++ "\"")
      else if deg.denominator = 1 then
        some (f64Display deg.value ++ "°" ++
          fmtFixed 4 (mn.value + sec.value / 60) ++ "\x27")
      else
        some (fmtFixed 7 (deg.value + mn.value / 60 + sec.value / 3600) ++ "°")
  | _ => none

/-- Model of `exifreadable.rs gps_alt_ref`. -/
def gps_alt_ref : Renderer := fun e =>
  match e with
  | .U8 (n :: _) =>
      match n with
      | 0 => some "Above sea level"
      | 1 => some "Below sea level"
      | _ => some ("Unknown, assumed below sea level (" ++ toString n ++ ")")
  | _ => none

/-- Model of `exifreadable.rs gpsdestdistanceref`. -/
def gpsdestdistanceref : Renderer := fun e =>
  match e with
  | .Ascii v =>
      if v = "N" then some "kn"
      else if v = "K" then some "km"
      else if v = "M" then some "mi"
      else some ("Unknown (" ++ v ++ ")")
  | _ => none

/-- Model of `exifreadable.rs gpsdestdistance`. -/
def gpsdestdistance : Renderer := fun e =>
  match e with
  | .URational (r :: _) => some (fmtFixed 3 r.value)
  | _ => none

/-- Model of `exifreadable.rs gpsspeedref`. -/
def gpsspeedref : Renderer := fun e =>
  match e with
  | .Ascii v =>
      if v = "N" then some "kn"
      else if v = "K" then some "km/h"
      else if v = "M" then some "mi/h"
      else some ("Unknown (" ++ v ++ ")")
  | _ => none

/-- Model of `exifreadable.rs gpsspeed`. -/
def gpsspeed : Renderer := fun e =>
  match e with
  | .URational (r :: _) => some (fmtFixed 1 r.value)
  | _ => none

/-- Model of `exifreadable.rs gpsbearingref`. -/
def gpsbearingref : Renderer := fun e =>
  match e with
  | .Ascii v =>
      if v = "T" then some "True bearing"
      else if v = "M" then some "Magnetic bearing"
      else some ("Unknown (" ++ v ++ ")")
  | _ => none

/-- Model of `exifreadable.rs gpsbearing`. -/
def gpsbearing : Renderer := fun e =>
  match e with
  | .URational (r :: _) => some (fmtFixed 2 r.value ++ "°")
  | _ => none

/-- Model of `exifreadable.rs gpstimestamp`. -/
def gpstimestamp : Renderer := fun e =>
  match e with
  | .URational (hour :: mn :: sec :: _) =>
      some (fmtFixedPad 2 0 hour.value ++ ":" ++ fmtFixedPad 2 0 mn.value ++ ":" ++
        fmtFixedPad 4 1 sec.value ++ " UTC")
  | _ => none

/-- Model of `exifreadable.rs gpsdiff`. -/
def gpsdiff : Renderer := fun e =>
  match e with
  | .U16 (n :: _) =>
      match n with
      | 0 => some "Measurement without differential correction"
      | 1 => some "Differential correction applied"
      | _ => some ("Unknown (" ++ toString n ++ ")")
  | _ => none

/-- Model of `exifreadable.rs gpsstatus`. -/
def gpsstatus : Renderer := fun e =>
  match e with
  | .Ascii v =>
      if v = "A" then some "Measurement in progress"
      else if v = "V" then some "Measurement is interoperability"
      else some ("Unknown (" ++ v ++ ")")
  | _ => none

/-- Model of `exifreadable.rs gpsmeasuremode`. -/
def gpsmeasuremode : Renderer := fun e =>
  match e with
  | .Ascii v =>
      if v = "2" then some "2-dimension"
      else if v = "3" then some "3-dimension"
      else some ("Unknown (" ++ v ++ ")")
  | _ => none

/-- Model of `exifreadable.rs undefined_as_ascii`. -/
def undefined_as_ascii : Renderer := fun e =>
  match e with
  | .Undefined v _ => some (from_utf8_lossy v)
  | _ => none

/-- Model of `exifreadable.rs undefined_as_u8`. -/
def undefined_as_u8 : Renderer := fun e =>
  match e with
  | .Undefined v _ => some (numarray_to_string toString v)
  | _ => none

/-- Model of `exifreadable.rs undefined_as_encoded_string`: dispatch on an
eight-byte preamble (ASCII, JIS or UNICODE), with fallbacks for short or
unrecognized preambles. -/
def undefined_as_encoded_string : Renderer := fun e =>
  match e with
  | .Undefined v le =>
      if v.length < 8 then
        some ("String w/ truncated preamble " ++ numarray_to_string toString v)
      else if v.take 8 = [0x41, 0x53, 0x43, 0x49, 0x49, 0, 0, 0] then
        some (from_utf8_lossy (v.drop 8))
      else if v.take 8 = [0x4A, 0x49, 0x53, 0, 0, 0, 0, 0] then
        some ("JIS string " ++ numarray_to_string toString (v.drop 8))
      else if v.take 8 = [0x55, 0x4E, 0x49, 0x43, 0x4F, 0x44, 0x45, 0x00] then
        some (from_utf16_lossy (read_u16_array le ((v.length - 8) / 2) (v.drop 8)))
      else
        some ("String w/ undefined encoding " ++ numarray_to_string toString v)
  | _ => none

/-- Model of `exifreadable.rs undefined_as_blob`. -/
def undefined_as_blob : Renderer := fun e =>
  match e with
  | .Undefined v _ => some ("Blob of " ++ toString v.length ++ " bytes")
  | _ => none

/-- Model of `exifreadable.rs apex_tv`. -/
def apex_tv : Renderer := fun e =>
  match e with
  | .IRational (r :: _) => some (fmtFixed 1 r.value ++ " Tv APEX")
  | _ => none

/-- Model of `exifreadable.rs apex_av`. -/
def apex_av : Renderer := fun e =>
  match e with
  | .URational (r :: _) => some (fmtFixed 1 r.value ++ " Av APEX")
  | _ => none

/-- Model of `exifreadable.rs apex_brightness` (numerator -1 is the TIFF
sentinel for unknown). -/
def apex_brightness : Renderer := fun e =>
  match e with
  | .IRational (r :: _) =>
      if r.numerator = -1 then some "Unknown"
      else some (fmtFixed 1 r.value ++ " APEX")
  | _ => none

/-- Model of `exifreadable.rs apex_ev`. -/
def apex_ev : Renderer := fun e =>
  match e with
  | .IRational (r :: _) => some (fmtFixed 2 r.value ++ " EV APEX")
  | _ => none

/-- Model of `exifreadable.rs file_source`. -/
def file_source : Renderer := fun e =>
  match e with
  | .Undefined v _ =>
      if v.length > 0 ∧ v.getD 0 0 = 3 then some "DSC" else some "Unknown"
  | _ => none

/-- Model of `exifreadable.rs flash_energy`. -/
def flash_energy : Renderer := fun e =>
  match e with
  | .URational (r :: _) => some (f64Display r.value ++ " BCPS")
  | _ => none

/-- Model of `exifreadable.rs metering_mode`. -/
def metering_mode : Renderer := fun e =>
  match e with
  | .U16 (n :: _) =>
      match n with
      | 0 => some "Unknown"
      | 1 => some "Average"
      | 2 => some "Center-weighted average"
      | 3 => some "Spot"
      | 4 => some "Multi-spot"
      | 5 => some "Pattern"
      | 6 => some "Partial"
      | 255 => some "Other"
      | _ => some ("Unknown (" ++ toString n ++ ")")
  | _ => none

/-- Model of `exifreadable.rs light_source`. -/
def light_source : Renderer := fun e =>
  match e with
  | .U16 (n :: _) =>
      match n with
      | 0 => some "Unknown"
      | 1 => some "Daylight"
      | 2 => some "Fluorescent"
      | 3 => some "Tungsten"
      | 4 => some "Flash"
      | 9 => some "Fine weather"
      | 10 => some "Cloudy weather"
      | 11 => some "Shade"
      | 12 => some "Daylight fluorescent (D)"
      | 13 => some "Day white fluorescent (N)"
      | 14 => some "Cool white fluorescent (W)"
      | 15 => some "White fluorescent (WW)"
      | 17 => some "Standard light A"
      | 18 => some "Standard light B"
      | 19 => some "Standard light C"
      | 20 => some "D55"
      | 21 => some "D65"
      | 22 => some "D75"
      | 23 => some "D50"
      | 24 => some "ISO studio tungsten"
      | 255 => some "Other"
      | _ => some ("Unknown (" ++ toString n ++ ")")
  | _ => none

/-- Model of `exifreadable.rs color_space`. -/
def color_space : Renderer := fun e =>
  match e with
  | .U16 (n :: _) =>
      match n with
      | 1 => some "sRGB"
      | 65535 => some "Uncalibrated"
      | _ => some ("Unknown (" ++ toString n ++ ")")
  | _ => none

/-- Model of `exifreadable.rs flash`: bit-field decode; bit 5 set
short-circuits to "Does not have a flash."; note that the auto-mode case of
bits 3-4 overwrites the strobe-return text, exactly as the source does. -/
def flash : Renderer := fun e =>
  match e with
  | .U16 (n :: _) =>
      if n &&& (1 <<< 5) > 0 then
        some "Does not have a flash."
      else
        let fired := n &&& 1 > 0
        let b0 := if fired then "Fired. " else "Did not fire. "
        let b6 :=
          if fired then
            if n &&& (1 <<< 6) > 0 then "Redeye reduction. " else "No redeye reduction. "
          else ""
        let m12 := (n >>> 1) &&& 3
        let b12a :=
          if fired then
            if m12 = 2 then "Strobe ret not detected. "
            else if m12 = 3 then "Strobe ret detected. "
            else ""
          else ""
        let m34 := (n >>> 3) &&& 3
        let b34 := if m34 = 1 then "Forced fire. "
                   else if m34 = 2 then "Forced suppresion. " else ""
        let b12 := if m34 = 3 then "Auto mode. " else b12a
        some (b0 ++ b12 ++ b34 ++ b6)
  | _ => none

/-- Model of `exifreadable.rs subject_area` (note the trailing space of the
unknown arm, present in the source). -/
def subject_area : Renderer := fun e =>
  match e with
  | .U16 v =>
      match v with
      | [a, b] => some ("at pixel " ++ toString a ++ "," ++ toString b)
      | [a, b, c] => some ("at center " ++ toString a ++ "," ++ toString b ++
          " radius " ++ toString c)
      | [a, b, c, d] => some ("at rectangle " ++ toString a ++ "," ++ toString b ++
          " width " ++ toString c ++ " height " ++ toString d)
      | _ => some ("Unknown (" ++ numarray_to_string toString v ++ ") ")
  | _ => none

/-- Model of `exifreadable.rs subject_location`. -/
def subject_location : Renderer := fun e =>
  match e with
  | .U16 (a :: b :: _) => some ("at pixel " ++ toString a ++ "," ++ toString b)
  | _ => none

/-- Model of `exifreadable.rs sharpness`. -/
def sharpness : Renderer := fun e =>
  match e with
  | .U16 (n :: _) =>
      match n with
      | 0 => some "Normal"
      | 1 => some "Soft"
      | 2 => some "Hard"
      | _ => some ("Unknown (" ++ toString n ++ ")")
  | _ => none

/-- Model of `exifreadable.rs saturation`. -/
def saturation : Renderer := fun e =>
  match e with
  | .U16 (n :: _) =>
      match n with
      | 0 => some "Normal"
      | 1 => some "Low"
      | 2 => some "High"
      | _ => some ("Unknown (" ++ toString n ++ ")")
  | _ => none

/-- Model of `exifreadable.rs contrast`. -/
def contrast : Renderer := fun e =>
  match e with
  | .U16 (n :: _) =>
      match n with
      | 0 => some "Normal"
      | 1 => some "Soft"
      | 2 => some "Hard"
      | _ => some ("Unknown (" ++ toString n ++ ")")
  | _ => none

/-- Model of `exifreadable.rs gain_control`. -/
def gain_control : Renderer := fun e =>
  match e with
  | .U16 (n :: _) =>
      match n with
      | 0 => some "None"
      | 1 => some "Low gain up"
      | 2 => some "High gain up"
      | 3 => some "Low gain down"
      | 4 => some "High gain down"
      | _ => some ("Unknown (" ++ toString n ++ ")")
  | _ => none

/-- Model of `exifreadable.rs exposure_mode`. -/
def exposure_mode : Renderer := fun e =>
  match e with
  | .U16 (n :: _) =>
      match n with
      | 0 => some "Auto exposure"
      | 1 => some "Manual exposure"
      | 2 => some "Auto bracket"
      | _ => some ("Unknown (" ++ toString n ++ ")")
  | _ => none

/-- Model of `exifreadable.rs scene_capture_type`. -/
def scene_capture_type : Renderer := fun e =>
  match e with
  | .U16 (n :: _) =>
      match n with
      | 0 => some "Standard"
      | 1 => some "Landscape"
      | 2 => some "Portrait"
      | 3 => some "Night scene"
      | _ => some ("Unknown (" ++ toString n ++ ")")
  | _ => none

/-- Model of `exifreadable.rs scene_type`. -/
def scene_type : Renderer := fun e =>
  match e with
  | .Undefined (n :: _) _ =>
      match n with
      | 1 => some "Directly photographed image"
      | _ => some ("Unknown (" ++ toString n ++ ")")
  | _ => none

/-- Model of `exifreadable.rs white_balance_mode`. -/
def white_balance_mode : Renderer := fun e =>
  match e with
  | .U16 (n :: _) =>
      match n with
      | 0 => some "Auto"
      | 1 => some "Manual"
      | _ => some ("Unknown (" ++ toString n ++ ")")
  | _ => none

/-- Model of `exifreadable.rs sensing_method`. -/
def sensing_method : Renderer := fun e =>
  match e with
  | .U16 (n :: _) =>
      match n with
      | 1 => some "Not defined"
      | 2 => some "One-chip color area sensor"
      | 3 => some "Two-chip color area sensor"
      | 4 => some "Three-chip color area sensor"
      | 5 => some "Color sequential area sensor"
      | 7 => some "Trilinear sensor"
      | 8 => some "Color sequential linear sensor"
      | _ => some ("Unknown (" ++ toString n ++ ")")
  | _ => none

/-- Model of `exifreadable.rs custom_rendered`. -/
def custom_rendered : Renderer := fun e =>
  match e with
  | .U16 (n :: _) =>
      match n with
      | 0 => some "Normal"
      | 1 => some "Custom"
      | _ => some ("Unknown (" ++ toString n ++ ")")
  | _ => none

/-- Model of `exifreadable.rs subject_distance_range`. -/
def subject_distance_range : Renderer := fun e =>
  match e with
  | .U16 (n :: _) =>
      match n with
      | 0 => some "Unknown"
      | 1 => some "Macro"
      | 2 => some "Close view"
      | 3 => some "Distant view"
      | _ => some ("Unknown (" ++ toString n ++ ")")
  | _ => none

/-- Model of `exifreadable.rs lens_spec`.  The `a0 == a0` comparisons of the
source are IEEE NaN tests on the f64 values; for a rational n/d the f64
value is NaN exactly when n = 0 and d = 0, which is how the test is
modelled here. -/
def lens_spec : Renderer := fun e =>
  match e with
  | .URational (v0 :: v1 :: v2 :: v3 :: _) =>
      let f0 := v0.value
      let f1 := v1.value
      let a0 := v2.value
      let a1 := v3.value
      let a0nan := v2.numerator = 0 ∧ v2.denominator = 0
      let a1nan := v3.numerator = 0 ∧ v3.denominator = 0
      if v0 = v1 then
        if ¬a0nan then
          some (f64Display f0 ++ " mm f/" ++ fmtFixed 1 a0)
        else
          some (f64Display f0 ++ " mm f/unknown")
      else
        if ¬a0nan ∧ ¬a1nan then
          some (f64Display f0 ++ "-" ++ f64Display f1 ++ " mm f/" ++
            fmtFixed 1 a0 ++ "-" ++ fmtFixed 1 a1)
        else
          some (f64Display f0 ++ "-" ++ f64Display f1 ++ " mm f/unknown")
  | _ => none

/-! ## types.rs — the ExifTag enumeration -/

/-- Model of the `types.rs ExifTag` enumeration. -/
inductive ExifTag where
  | UnknownToMe
  | ImageDescription
  | Make
  | Model
  | Orientation
  | XResolution
  | YResolution
  | ResolutionUnit
  | Software
  | DateTime
  | HostComputer
  | WhitePoint
  | PrimaryChromaticities
  | YCbCrCoefficients
  | ReferenceBlackWhite
  | Copyright
  | ExifOffset
  | GPSOffset
  | ExposureTime
  | FNumber
  | ExposureProgram
  | SpectralSensitivity
  | ISOSpeedRatings
  | OECF
  | ExifVersion
  | DateTimeOriginal
  | DateTimeDigitized
  | ShutterSpeedValue
  | ApertureValue
  | BrightnessValue
  | ExposureBiasValue
  | MaxApertureValue
  | SubjectDistance
  | MeteringMode
  | LightSource
  | Flash
  | FocalLength
  | SubjectArea
  | MakerNote
  | UserComment
  | FlashPixVersion
  | ColorSpace
  | RelatedSoundFile
  | FlashEnergy
  | FocalPlaneXResolution
  | FocalPlaneYResolution
  | FocalPlaneResolutionUnit
  | SubjectLocation
  | ExposureIndex
  | SensingMethod
  | FileSource
  | SceneType
  | CFAPattern
  | CustomRendered
  | ExposureMode
  | WhiteBalanceMode
  | DigitalZoomRatio
  | FocalLengthIn35mmFilm
  | SceneCaptureType
  | GainControl
  | Contrast
  | Saturation
  | Sharpness
  | DeviceSettingDescription
  | SubjectDistanceRange
  | ImageUniqueID
  | LensSpecification
  | LensMake
  | LensModel
  | GPSVersionID
  | GPSLatitudeRef
  | GPSLatitude
  | GPSLongitudeRef
  | GPSLongitude
  | GPSAltitudeRef
  | GPSAltitude
  | GPSTimeStamp
  | GPSSatellites
  | GPSStatus
  | GPSMeasureMode
  | GPSDOP
  | GPSSpeedRef
  | GPSSpeed
  | GPSTrackRef
  | GPSTrack
  | GPSImgDirectionRef
  | GPSImgDirection
  | GPSMapDatum
  | GPSDestLatitudeRef
  | GPSDestLatitude
  | GPSDestLongitudeRef
  | GPSDestLongitude
  | GPSDestBearingRef
  | GPSDestBearing
  | GPSDestDistanceRef
  | GPSDestDistance
  | GPSProcessingMethod
  | GPSAreaInformation
  | GPSDateStamp
  | GPSDifferential
  deriving DecidableEq, Repr

/-- Numeric value of each `ExifTag` item (the Rust enumeration
discriminants; casting the enum to `u16` yields the tag code). -/
def ExifTag.code : ExifTag → Nat
  | .UnknownToMe => 0xffff
  | .ImageDescription => 0x010e
  | .Make => 0x010f
  | .Model => 0x0110
  | .Orientation => 0x0112
  | .XResolution => 0x011a
  | .YResolution => 0x011b
  | .ResolutionUnit => 0x0128
  | .Software => 0x0131
  | .DateTime => 0x0132
  | .HostComputer => 0x013c
  | .WhitePoint => 0x013e
  | .PrimaryChromaticities => 0x013f
  | .YCbCrCoefficients => 0x0211
  | .ReferenceBlackWhite => 0x0214
  | .Copyright => 0x8298
  | .ExifOffset => 0x8769
  | .GPSOffset => 0x8825
  | .ExposureTime => 0x829a
  | .FNumber => 0x829d
  | .ExposureProgram => 0x8822
  | .SpectralSensitivity => 0x8824
  | .ISOSpeedRatings => 0x8827
  | .OECF => 0x8828
  | .ExifVersion => 0x9000
  | .DateTimeOriginal => 0x9003
  | .DateTimeDigitized => 0x9004
  | .ShutterSpeedValue => 0x9201
  | .ApertureValue => 0x9202
  | .BrightnessValue => 0x9203
  | .ExposureBiasValue => 0x9204
  | .MaxApertureValue => 0x9205
  | .SubjectDistance => 0x9206
  | .MeteringMode => 0x9207
  | .LightSource => 0x9208
  | .Flash => 0x9209
  | .FocalLength => 0x920a
  | .SubjectArea => 0x9214
  | .MakerNote => 0x927c
  | .UserComment => 0x9286
  | .FlashPixVersion => 0xa000
  | .ColorSpace => 0xa001
  | .RelatedSoundFile => 0xa004
  | .FlashEnergy => 0xa20b
  | .FocalPlaneXResolution => 0xa20e
  | .FocalPlaneYResolution => 0xa20f
  | .FocalPlaneResolutionUnit => 0xa210
  | .SubjectLocation => 0xa214
  | .ExposureIndex => 0xa215
  | .SensingMethod => 0xa217
  | .FileSource => 0xa300
  | .SceneType => 0xa301
  | .CFAPattern => 0xa302
  | .CustomRendered => 0xa401
  | .ExposureMode => 0xa402
  | .WhiteBalanceMode => 0xa403
  | .DigitalZoomRatio => 0xa404
  | .FocalLengthIn35mmFilm => 0xa405
  | .SceneCaptureType => 0xa406
  | .GainControl => 0xa407
  | .Contrast => 0xa408
  | .Saturation => 0xa409
  | .Sharpness => 0xa40a
  | .DeviceSettingDescription => 0xa40b
  | .SubjectDistanceRange => 0xa40c
  | .ImageUniqueID => 0xa420
  | .LensSpecification => 0xa432
  | .LensMake => 0xa433
  | .LensModel => 0xa434
  | .GPSVersionID => 0x0
  | .GPSLatitudeRef => 0x1
  | .GPSLatitude => 0x2
  | .GPSLongitudeRef => 0x3
  | .GPSLongitude => 0x4
  | .GPSAltitudeRef => 0x5
  | .GPSAltitude => 0x6
  | .GPSTimeStamp => 0x7
  | .GPSSatellites => 0x8
  | .GPSStatus => 0x9
  | .GPSMeasureMode => 0xa
  | .GPSDOP => 0xb
  | .GPSSpeedRef => 0xc
  | .GPSSpeed => 0xd
  | .GPSTrackRef => 0xe
  | .GPSTrack => 0xf
  | .GPSImgDirectionRef => 0x10
  | .GPSImgDirection => 0x11
  | .GPSMapDatum => 0x12
  | .GPSDestLatitudeRef => 0x13
  | .GPSDestLatitude => 0x14
  | .GPSDestLongitudeRef => 0x15
  | .GPSDestLongitude => 0x16
  | .GPSDestBearingRef => 0x17
  | .GPSDestBearing => 0x18
  | .GPSDestDistanceRef => 0x19
  | .GPSDestDistance => 0x1a
  | .GPSProcessingMethod => 0x1b
  | .GPSAreaInformation => 0x1c
  | .GPSDateStamp => 0x1d
  | .GPSDifferential => 0x1e

/-! ## exif.rs — the tag registry -/

/-- Row type of the registry: tag enumeration item, readable tag name,
unit, expected format, minimum and maximum element count (-1 for
variable-length formats) and the renderer. -/
def TagDescriptor := ExifTag × String × String × IfdFormat × Int × Int × Renderer

/-- Model of `exif.rs tag_to_exif`: numeric tag code to descriptor.  The
Rust match on integer literals is transcribed as an equality chain, in
source order; the final row is the catch-all for unrecognized codes. -/
def tag_to_exif (f : Nat) : TagDescriptor :=
  if f = 0x010e then
    (.ImageDescription, "Image Description", "none", .Ascii, -1, -1, strpass)
  else if f = 0x010f then
    (.Make, "Manufacturer", "none", .Ascii, -1, -1, strpass)
  else if f = 0x013c then
    (.HostComputer, "Host computer", "none", .Ascii, -1, -1, strpass)
  else if f = 0x0110 then
    (.Model, "Model", "none", .Ascii, -1, -1, strpass)
  else if f = 0x0112 then
    (.Orientation, "Orientation", "none", .U16, 1, 1, orientation)
  else if f = 0x011a then
    (.XResolution, "X Resolution", "pixels per res unit", .URational, 1, 1, rational_value)
  else if f = 0x011b then
    (.YResolution, "Y Resolution", "pixels per res unit", .URational, 1, 1, rational_value)
  else if f = 0x0128 then
    (.ResolutionUnit, "Resolution Unit", "none", .U16, 1, 1, resolution_unit)
  else if f = 0x0131 then
    (.Software, "Software", "none", .Ascii, -1, -1, strpass)
  else if f = 0x0132 then
    (.DateTime, "Image date", "none", .Ascii, -1, -1, strpass)
  else if f = 0x013e then
    (.WhitePoint, "White Point", "CIE 1931 coordinates", .URational, 2, 2, rational_values)
  else if f = 0x013f then
    (.PrimaryChromaticities, "Primary Chromaticities", "CIE 1931 coordinates",
      .URational, 6, 6, rational_values)
  else if f = 0x0211 then
    (.YCbCrCoefficients, "YCbCr Coefficients", "none", .URational, 3, 3, rational_values)
  else if f = 0x0214 then
    (.ReferenceBlackWhite, "Reference Black/White", "RGB or YCbCr",
      .URational, 6, 6, rational_values)
  else if f = 0x8298 then
    (.Copyright, "Copyright", "none", .Ascii, -1, -1, strpass)
  else if f = 0x8769 then
    (.ExifOffset, "This image has an Exif SubIFD", "byte offset", .U32, 1, 1, strpass)
  else if f = 0x8825 then
    (.GPSOffset, "This image has a GPS SubIFD", "byte offset", .U32, 1, 1, strpass)
  else if f = 0x829a then
    (.ExposureTime, "Exposure time", "s", .URational, 1, 1, exposure_time)
  else if f = 0x829d then
    (.FNumber, "Aperture", "f-number", .URational, 1, 1, f_number)
  else if f = 0x8822 then
    (.ExposureProgram, "Exposure program", "none", .U16, 1, 1, exposure_program)
  else if f = 0x8824 then
    (.SpectralSensitivity, "Spectral sensitivity", "ASTM string", .Ascii, -1, -1, strpass)
  else if f = 0x8827 then
    (.ISOSpeedRatings, "ISO speed ratings", "ISO", .U16, 1, 3, iso_speeds)
  else if f = 0x8828 then
    (.OECF, "OECF", "none", .Undefined, -1, -1, undefined_as_blob)
  else if f = 0x9000 then
    (.ExifVersion, "Exif version", "none", .Undefined, -1, -1, undefined_as_ascii)
  else if f = 0x9003 then
    (.DateTimeOriginal, "Date of original image", "none", .Ascii, -1, -1, strpass)
  else if f = 0x9004 then
    (.DateTimeDigitized, "Date of image digitalization", "none", .Ascii, -1, -1, strpass)
  else if f = 0x9201 then
    (.ShutterSpeedValue, "Shutter speed", "APEX", .IRational, 1, 1, apex_tv)
  else if f = 0x9202 then
    (.ApertureValue, "Aperture value", "APEX", .URational, 1, 1, apex_av)
  else if f = 0x9203 then
    (.BrightnessValue, "Brightness value", "APEX", .IRational, 1, 1, apex_brightness)
  else if f = 0x9204 then
    (.ExposureBiasValue, "Exposure bias value", "APEX", .IRational, 1, 1, apex_ev)
  else if f = 0x9205 then
    (.MaxApertureValue, "Maximum aperture value", "APEX", .URational, 1, 1, apex_av)
  else if f = 0x9206 then
    (.SubjectDistance, "Subject distance", "m", .URational, 1, 1, meters)
  else if f = 0x9207 then
    (.MeteringMode, "Meteting mode", "none", .U16, 1, 1, metering_mode)
  else if f = 0x9208 then
    (.LightSource, "Light source", "none", .U16, 1, 1, light_source)
  else if f = 0x9209 then
    (.Flash, "Flash", "none", .U16, 1, 2, flash)
  else if f = 0x920a then
    (.FocalLength, "Focal length", "mm", .URational, 1, 1, focal_length)
  else if f = 0x9214 then
    (.SubjectArea, "Subject area", "px", .U16, 2, 4, subject_area)
  else if f = 0x927c then
    (.MakerNote, "Maker note", "none", .Undefined, -1, -1, undefined_as_blob)
  else if f = 0x9286 then
    (.UserComment, "User comment", "none", .Undefined, -1, -1, undefined_as_encoded_string)
  else if f = 0xa000 then
    (.FlashPixVersion, "Flashpix version", "none", .Undefined, -1, -1, undefined_as_ascii)
  else if f = 0xa001 then
    (.ColorSpace, "Color space", "none", .U16, 1, 1, color_space)
  else if f = 0xa004 then
    (.RelatedSoundFile, "Related sound file", "none", .Ascii, -1, -1, strpass)
  else if f = 0xa20b then
    (.FlashEnergy, "Flash energy", "BCPS", .URational, 1, 1, flash_energy)
  else if f = 0xa20e then
    (.FocalPlaneXResolution, "Focal plane X resolution", "@FocalPlaneResolutionUnit",
      .URational, 1, 1, rational_value)
  else if f = 0xa20f then
    (.FocalPlaneYResolution, "Focal plane Y resolution", "@FocalPlaneResolutionUnit",
      .URational, 1, 1, rational_value)
  else if f = 0xa210 then
    (.FocalPlaneResolutionUnit, "Focal plane resolution unit", "none",
      .U16, 1, 1, resolution_unit)
  else if f = 0xa214 then
    (.SubjectLocation, "Subject location", "X,Y", .U16, 2, 2, subject_location)
  else if f = 0xa215 then
    (.ExposureIndex, "Exposure index", "EI", .URational, 1, 1, rational_value)
  else if f = 0xa217 then
    (.SensingMethod, "Sensing method", "none", .U16, 1, 1, sensing_method)
  else if f = 0xa300 then
    (.FileSource, "File source", "none", .Undefined, 1, 1, file_source)
  else if f = 0xa301 then
    (.SceneType, "Scene type", "none", .Undefined, 1, 1, scene_type)
  else if f = 0xa302 then
    (.CFAPattern, "CFA Pattern", "none", .Undefined, -1, -1, undefined_as_u8)
  else if f = 0xa401 then
    (.CustomRendered, "Custom rendered", "none", .U16, 1, 1, custom_rendered)
  else if f = 0xa402 then
    (.ExposureMode, "Exposure mode", "none", .U16, 1, 1, exposure_mode)
  else if f = 0xa403 then
    (.WhiteBalanceMode, "White balance mode", "none", .U16, 1, 1, white_balance_mode)
  else if f = 0xa404 then
    (.DigitalZoomRatio, "Digital zoom ratio", "none", .URational, 1, 1, rational_value)
  else if f = 0xa405 then
    (.FocalLengthIn35mmFilm, "Equivalent focal length in 35mm", "mm",
      .U16, 1, 1, focal_length_35)
  else if f = 0xa406 then
    (.SceneCaptureType, "Scene capture type", "none", .U16, 1, 1, scene_capture_type)
  else if f = 0xa407 then
    (.GainControl, "Gain control", "none", .U16, 1, 1, gain_control)
  else if f = 0xa408 then
    (.Contrast, "Contrast", "none", .U16, 1, 1, contrast)
  else if f = 0xa409 then
    (.Saturation, "Saturation", "none", .U16, 1, 1, saturation)
  else if f = 0xa40a then
    (.Sharpness, "Sharpness", "none", .U16, 1, 1, sharpness)
  else if f = 0xa432 then
    (.LensSpecification, "Lens specification", "none", .URational, 4, 4, lens_spec)
  else if f = 0xa433 then
    (.LensMake, "Lens manufacturer", "none", .Ascii, -1, -1, strpass)
  else if f = 0xa434 then
    (.LensModel, "Lens model", "none", .Ascii, -1, -1, strpass)
  else if f = 0xa40b then
    (.DeviceSettingDescription, "Device setting description", "none",
      .Undefined, -1, -1, undefined_as_blob)
  else if f = 0xa40c then
    (.SubjectDistanceRange, "Subject distance range", "none",
      .U16, 1, 1, subject_distance_range)
  else if f = 0xa420 then
    (.ImageUniqueID, "Image unique ID", "none", .Ascii, -1, -1, strpass)
  else if f = 0x0 then
    (.GPSVersionID, "GPS version ID", "none", .U8, 4, 4, strpass)
  else if f = 0x1 then
    (.GPSLatitudeRef, "GPS latitude ref", "none", .Ascii, -1, -1, strpass)
  else if f = 0x2 then
    (.GPSLatitude, "GPS latitude", "D/M/S", .URational, 3, 3, dms)
  else if f = 0x3 then
    (.GPSLongitudeRef, "GPS longitude ref", "none", .Ascii, -1, -1, strpass)
  else if f = 0x4 then
    (.GPSLongitude, "GPS longitude", "D/M/S", .URational, 3, 3, dms)
  else if f = 0x5 then
    (.GPSAltitudeRef, "GPS altitude ref", "none", .U8, 1, 1, gps_alt_ref)
  else if f = 0x6 then
    (.GPSAltitude, "GPS altitude", "m", .URational, 1, 1, meters)
  else if f = 0x7 then
    (.GPSTimeStamp, "GPS timestamp", "UTC time", .URational, 3, 3, gpstimestamp)
  else if f = 0x8 then
    (.GPSSatellites, "GPS satellites", "none", .Ascii, -1, -1, strpass)
  else if f = 0x9 then
    (.GPSStatus, "GPS status", "none", .Ascii, -1, -1, gpsstatus)
  else if f = 0xa then
    (.GPSMeasureMode, "GPS measure mode", "none", .Ascii, -1, -1, gpsmeasuremode)
  else if f = 0xb then
    (.GPSDOP, "GPS Data Degree of Precision (DOP)", "none", .URational, 1, 1, rational_value)
  else if f = 0xc then
    (.GPSSpeedRef, "GPS speed ref", "none", .Ascii, -1, -1, gpsspeedref)
  else if f = 0xd then
    (.GPSSpeed, "GPS speed", "@GPSSpeedRef", .URational, 1, 1, gpsspeed)
  else if f = 0xe then
    (.GPSTrackRef, "GPS track ref", "none", .Ascii, -1, -1, gpsbearingref)
  else if f = 0xf then
    (.GPSTrack, "GPS track", "deg", .URational, 1, 1, gpsbearing)
  else if f = 0x10 then
    (.GPSImgDirectionRef, "GPS image direction ref", "none", .Ascii, -1, -1, gpsbearingref)
  else if f = 0x11 then
    (.GPSImgDirection, "GPS image direction", "deg", .URational, 1, 1, gpsbearing)
  else if f = 0x12 then
    (.GPSMapDatum, "GPS map datum", "none", .Ascii, -1, -1, strpass)
  else if f = 0x13 then
    (.GPSDestLatitudeRef, "GPS destination latitude ref", "none", .Ascii, -1, -1, strpass)
  else if f = 0x14 then
    (.GPSDestLatitude, "GPS destination latitude", "D/M/S", .URational, 3, 3, dms)
  else if f = 0x15 then
    (.GPSDestLongitudeRef, "GPS destination longitude ref", "none", .Ascii, -1, -1, strpass)
  else if f = 0x16 then
    (.GPSDestLongitude, "GPS destination longitude", "D/M/S", .URational, 3, 3, dms)
  else if f = 0x17 then
    (.GPSDestBearingRef, "GPS destination bearing ref", "none", .Ascii, -1, -1, gpsbearingref)
  else if f = 0x18 then
    (.GPSDestBearing, "GPS destination bearing", "deg", .URational, 1, 1, gpsbearing)
  else if f = 0x19 then
    (.GPSDestDistanceRef, "GPS destination distance ref", "none",
      .Ascii, -1, -1, gpsdestdistanceref)
  else if f = 0x1a then
    (.GPSDestDistance, "GPS destination distance", "@GPSDestDistanceRef",
      .URational, 1, 1, gpsdestdistance)
  else if f = 0x1b then
    (.GPSProcessingMethod, "GPS processing method", "none",
      .Undefined, -1, -1, undefined_as_encoded_string)
  else if f = 0x1c then
    (.GPSAreaInformation, "GPS area information", "none",
      .Undefined, -1, -1, undefined_as_encoded_string)
  else if f = 0x1d then
    (.GPSDateStamp, "GPS date stamp", "none", .Ascii, -1, -1, strpass)
  else if f = 0x1e then
    (.GPSDifferential, "GPS differential", "none", .U16, 1, 1, gpsdiff)
  else
    (.UnknownToMe, "Unknown to this library, or manufacturer-specific", "Unknown unit",
      .Unknown, -1, -1, nop)

/-! ## image.rs — container sniffing and JPEG marker scan -/

/-- Model of the `types.rs ExifError` enumeration (the `IoError` variant
carries a message string standing in for the wrapped platform error). -/
inductive ExifError where
  | IoError (msg : String)
  | FileTypeUnknown
  | JpegWithoutExif (s : String)
  | TiffTruncated
  | TiffBadPreamble (s : String)
  | IfdTruncated
  | ExifIfdTruncated (s : String)
  | ExifIfdEntryNotFound
  deriving DecidableEq, Repr

/-- Lowercase hexadecimal rendering of a number, as the Rust format
specifier `{:x}` produces. -/
def natToHex (n : Nat) : String :=
  String.mk (Nat.toDigits 16 n)

/-- Model of `image.rs detect_type`: fixed magic-byte checks (JPEG with a
JFIF or Exif preamble at offset 6, TIFF little- or big-endian); buffers
shorter than 11 bytes and buffers matching no check yield the empty
string. -/
def detect_type (contents : List Nat) : String :=
  if contents.length < 11 then ""
  else if contents.getD 0 0 = 0xff ∧ contents.getD 1 0 = 0xd8 ∧
          contents.getD 2 0 = 0xff ∧
          contents.getD 6 0 = 74 ∧ contents.getD 7 0 = 70 ∧
          contents.getD 8 0 = 73 ∧ contents.getD 9 0 = 70 ∧
          contents.getD 10 0 = 0 then "image/jpeg"
  else if contents.getD 0 0 = 0xff ∧ contents.getD 1 0 = 0xd8 ∧
          contents.getD 2 0 = 0xff ∧
          contents.getD 6 0 = 69 ∧ contents.getD 7 0 = 120 ∧
          contents.getD 8 0 = 105 ∧ contents.getD 9 0 = 102 ∧
          contents.getD 10 0 = 0 then "image/jpeg"
  else if contents.getD 0 0 = 73 ∧ contents.getD 1 0 = 73 ∧
          contents.getD 2 0 = 42 ∧ contents.getD 3 0 = 0 then "image/tiff"
  else if contents.getD 0 0 = 77 ∧ contents.getD 1 0 = 77 ∧
          contents.getD 2 0 = 0 ∧ contents.getD 3 0 = 42 then "image/tiff"
  else ""

/-- Model of the marker-scan loop of `image.rs find_embedded_tiff_in_jpeg`.
The while loop is driven by a fuel parameter: every iteration advances the
offset by at least 4 (the size word is at least 2 and two marker bytes are
consumed) and the loop exits once the offset reaches the buffer length, so
`contents.length` iterations always suffice; exhausted fuel returns the
same error as running past the end of the scan (unreachable with that
fuel).  The preamble test transcribes the source exactly: the six per-byte
inequality tests are combined with AND, so the error arm is taken only
when every one of the six bytes differs from `Exif\x5c0\x5c0`. -/
def find_tiff_loop (contents : List Nat) : Nat → Nat → Except ExifError (Nat × Nat)
  | 0, _ => .error (.JpegWithoutExif "Scan past EOF and no EXIF found")
  | fuel + 1, offset =>
    if offset < contents.length then
      if contents.length < offset + 4 then
        .error (.JpegWithoutExif "JPEG truncated in marker header")
      else
        let marker := (contents.getD offset 0) * 256 + contents.getD (offset + 1) 0
        if marker < 0xff00 then
          .error (.JpegWithoutExif ("Invalid marker " ++ natToHex marker))
        else
          let offset2 := offset + 2
          let size := (contents.getD offset2 0) * 256 + contents.getD (offset2 + 1) 0
          if size < 2 then
            .error (.JpegWithoutExif
              "JPEG marker size must be at least 2 (because of the size word)")
          else if contents.length < offset2 + size then
            .error (.JpegWithoutExif "JPEG truncated in marker body")
          else if marker = 0xffe1 then
            let offset3 := offset2 + 2
            let size3 := size - 2
            if size3 < 6 then
              .error (.JpegWithoutExif "EXIF preamble truncated")
            else if contents.getD offset3 0 ≠ 69 ∧ contents.getD (offset3 + 1) 0 ≠ 120 ∧
                    contents.getD (offset3 + 2) 0 ≠ 105 ∧ contents.getD (offset3 + 3) 0 ≠ 102 ∧
                    contents.getD (offset3 + 4) 0 ≠ 0 ∧ contents.getD (offset3 + 5) 0 ≠ 0 then
              .error (.JpegWithoutExif "EXIF preamble unrecognized")
            else
              .ok (offset3 + 6, size3 - 6)
          else if marker = 0xffda then
            .error (.JpegWithoutExif "Last mark found and no EXIF")
          else
            find_tiff_loop contents fuel (offset2 + size)
    else
      .error (.JpegWithoutExif "Scan past EOF and no EXIF found")

/-- Model of `image.rs find_embedded_tiff_in_jpeg`: scan markers starting
at offset 2 and return the byte range of the TIFF payload of the first
`0xFFE1` segment. -/
def find_embedded_tiff_in_jpeg (contents : List Nat) : Except ExifError (Nat × Nat) :=
  find_tiff_loop contents contents.length 2

/-! ## types_impl.rs — IfdEntry helpers -/

/-- Model of `types_impl.rs IfdEntry::length`: element size times count. -/
def IfdEntry.length (e : IfdEntry) : Nat :=
  e.format.size * e.count

/-- Model of `types_impl.rs IfdEntry::in_ifd`: data fits in the four
in-IFD bytes. -/
def IfdEntry.in_ifd (e : IfdEntry) : Bool :=
  e.length ≤ 4

/-- Reading of a `u32` value as `i32`, as the Rust cast `as i32` does
(two-complement wrap). -/
def u32_as_i32 (n : Nat) : Int :=
  if n < 0x80000000 then (n : Int) else (n : Int) - 0x100000000

/-! ## tiff.rs — IFD walking (the revision with the seven-column registry) -/

/-- Model of the error-kind enumeration used by the `tiff.rs` revision
(struct-with-kind error shape). -/
inductive ExifErrorKind where
  | FileOpenError
  | FileSeekError
  | FileReadError
  | FileTypeUnknown
  | JpegWithoutExif
  | TiffTruncated
  | TiffBadPreamble
  | IfdTruncated
  | ExifIfdTruncated
  | ExifIfdEntryNotFound
  deriving DecidableEq, Repr

namespace Tiff

/-- Model of the `ExifError` struct of the `tiff.rs` revision: an error
kind plus a context string. -/
structure ExifError where
  kind : ExifErrorKind
  extra : String
  deriving DecidableEq, Repr

/-- Model of the `ExifEntry` struct as constructed by the `tiff.rs`
revision (raw IFD entry, resolved tag, decoded value, unit and the three
readable strings). -/
structure ExifEntry where
  ifd : IfdEntry
  tag : ExifTag
  value : TagValue
  unit : String
  tag_readable : String
  value_readable : String
  value_more_readable : String
  deriving DecidableEq, Repr

/-- Model of the `lib.rs` revision of `IfdEntry::data_as_offset` (lines
257-259): the four in-IFD bytes (`ifd_data`) read as a 32-bit offset.
This is the revision paired with the `tiff.rs` parser, which stores those
bytes in `ifd_data`; the `types_impl.rs` revision reads `data` instead,
because its directory parser stores the inline bytes there. -/
def data_as_offset (e : IfdEntry) : Nat :=
  read_u32 e.le (e.ifd_data.take 4)

/-- Model of `lib.rs IfdEntry::copy_data` (lines 290-309), the revision of
the payload-resolution step compatible with the `tiff.rs` parser, whose
`parse_ifd` stores the four in-IFD bytes in `ifd_data` and leaves `data`
empty: when the payload fits in four bytes, `data` becomes the in-IFD
bytes; otherwise the in-IFD bytes are a 32-bit offset into the whole
buffer from which element-size times count bytes are copied into
`ext_data` and then `data`; if offset plus length exceeds the buffer, the
entry is left unresolved (the function returns false there, a result the
caller in `tiff.rs` ignores, so the boolean is not modelled). -/
def copy_data (contents : List Nat) (e : IfdEntry) : IfdEntry :=
  if e.in_ifd then
    { e with data := e.ifd_data }
  else
    let offset := data_as_offset e
    if contents.length < offset + e.length then
      e
    else
      let ext := (contents.drop offset).take e.length
      { e with ext_data := ext, data := ext }

/-- Model of `tiff.rs parse_ifd`: superficial parse of `count` 12-byte
records (tag, format, count, four data-or-offset bytes); for a SubIFD the
next-IFD pointer is not read. -/
def parse_ifd (subifd le : Bool) (count : Nat) (contents : List Nat) :
    List IfdEntry × Nat :=
  let entries := (List.range count).map (fun i =>
    let offset := i * 12
    { tag := read_u16 le (contents.drop offset)
      format := ifdformat_new (read_u16 le (contents.drop (offset + 2)))
      count := read_u32 le (contents.drop (offset + 4))
      ifd_data := (contents.drop (offset + 8)).take 4
      le := le
      ext_data := []
      data := [] : IfdEntry })
  let next_ifd : Nat :=
    match subifd with
    | true => 0
    | false => read_u32 le (contents.drop (count * 12))
  (entries, next_ifd)

/-- Model of `tiff.rs parse_exif_entry`: decode the raw entry, look its tag
up in the registry, and return the crude entry unchanged when the tag is
unknown, the on-disk format does not match, or the element count is out of
the registry bounds; otherwise fill in the tag data and the tag-specific
rendering.  `none` models the internal-consistency panic (and a renderer
panic in the final arm). -/
def parse_exif_entry (f : IfdEntry) : Option ExifEntry :=
  let vr := tag_value_new f
  let value := vr.1
  let readable_value := vr.2
  let e : ExifEntry :=
    { ifd := f
      tag := .UnknownToMe
      value := value
      unit := "Unknown"
      tag_readable := "Unparsed tag " ++ natToHex f.tag
      value_readable := readable_value
      value_more_readable := readable_value }
  let d := tag_to_exif f.tag
  let tag := d.1
  let tag_readable := d.2.1
  let unit := d.2.2.1
  let format := d.2.2.2.1
  let min_count := d.2.2.2.2.1
  let max_count := d.2.2.2.2.2.1
  let more_readable := d.2.2.2.2.2.2
  if tag = .UnknownToMe then
    some e
  else if tag.code ≠ f.tag ∨
          (min_count = -1 ∧ format ≠ .Ascii ∧ format ≠ .Undefined ∧ format ≠ .Unknown) ∨
          (min_count ≠ -1 ∧ format = .Ascii) then
    none
  else if format ≠ f.format then
    some e
  else if min_count ≠ -1 ∧
          (u32_as_i32 f.count < min_count ∨ u32_as_i32 f.count > max_count) then
    some e
  else
    (more_readable value).map (fun s =>
      { e with tag := tag, tag_readable := tag_readable, unit := unit,
               value_more_readable := s })

/-- Model of `tiff.rs parse_exif_ifd`: check that the entry count and the
listing fit in the buffer, superficially parse the listing, resolve each
payload and decode each entry, appending the results to the accumulated
entry list.  The outer `Option` models a panic inside `parse_exif_entry`;
the `Except` carries the two truncation errors. -/
def parse_exif_ifd (le : Bool) (contents : List Nat) (ioffset : Nat)
    (exif_entries : List ExifEntry) : Option (Except ExifError (List ExifEntry)) :=
  if contents.length < ioffset + 2 then
    some (.error { kind := .ExifIfdTruncated, extra := "Truncated at dir entry count" })
  else
    let count := read_u16 le (contents.drop ioffset)
    let ifd_length := count * 12
    let offset := ioffset + 2
    if contents.length < offset + ifd_length then
      some (.error { kind := .ExifIfdTruncated, extra := "Truncated at dir listing" })
    else
      let ifd := (parse_ifd true le count ((contents.drop offset).take ifd_length)).1
      let processed := ifd.map (copy_data contents)
      (processed.mapM parse_exif_entry).map (fun new => .ok (exif_entries ++ new))

end Tiff

/-! ## types.rs / exifpost.rs — the revision with tag-identity postprocessing -/

/-- Model of the `types.rs Namespace` enumeration. -/
inductive Namespace where
  | Standard
  | Nikon
  | Canon
  deriving DecidableEq, Repr

namespace Post

/-- Model of the `IfdTag` enumeration of the `exifpost.rs` revision:
either a raw unknown code or a recognized EXIF tag. -/
inductive IfdTag where
  | Unknown (value : Nat)
  | Exif (tag : ExifTag)
  deriving DecidableEq, Repr

/-- Model of the `ExifEntry` struct of the `exifpost.rs` revision.  The
first field is called `namespace` in the source; that word is a Lean
keyword, so the field is named `nspace` here. -/
structure ExifEntry where
  nspace : Namespace
  tag : IfdTag
  value : TagValue
  value_more_readable : String
  deriving DecidableEq, Repr

/-- Model of `exifpost.rs entry_for_tag`: first entry whose tag is the
given EXIF tag. -/
def entry_for_tag (tag : ExifTag) (entries : List ExifEntry) : Option ExifEntry :=
  entries.find? (fun entry => decide (entry.tag = IfdTag.Exif tag))

/-- Model of `exifpost.rs value_more_readable_for_tag`. -/
def value_more_readable_for_tag (tag : ExifTag) (entries : List ExifEntry) :
    Option String :=
  (entry_for_tag tag entries).map (fun entry => entry.value_more_readable)

/-- Model of `exifpost.rs postprocess_entry`: when the sibling tag is
present, append the join text and the sibling readable string; the
in-place mutation of the source is modelled by returning the new string. -/
def postprocess_entry (value_more_readable : String) (entries : List ExifEntry)
    (tag : ExifTag) (join_text : String) : String :=
  match value_more_readable_for_tag tag entries with
  | some other => value_more_readable ++ join_text ++ other
  | none => value_more_readable

/-- Model of `exifpost.rs exif_postprocessing`: for the fixed set of tags
that depend on a sibling tag, update the readable string; the in-place
mutation is modelled by returning the updated entry.  `none` models the
panic of the `GPSAltitude` arm when the sibling `GPSAltitudeRef` value is
a `U8` with an empty vector (the source indexes `fv[0]`). -/
def exif_postprocessing (entry : ExifEntry) (entries : List ExifEntry) :
    Option ExifEntry :=
  match entry.tag with
  | .Exif exif_tag =>
    match exif_tag with
    | .XResolution | .YResolution =>
        some { entry with value_more_readable :=
          (postprocess_entry entry.value_more_readable entries ExifTag.ResolutionUnit
            " pixels per ") }
    | .FocalPlaneXResolution | .FocalPlaneYResolution =>
        some { entry with value_more_readable :=
          (postprocess_entry entry.value_more_readable entries ExifTag.FocalPlaneResolutionUnit
            " pixels per ") }
    | .GPSLatitude =>
        some { entry with value_more_readable :=
          (postprocess_entry entry.value_more_readable entries ExifTag.GPSLatitudeRef " ") }
    | .GPSLongitude =>
        some { entry with value_more_readable :=
          (postprocess_entry entry.value_more_readable entries ExifTag.GPSLongitudeRef " ") }
    | .GPSAltitude =>
        match entry_for_tag ExifTag.GPSAltitudeRef entries with
        | some f =>
          match f.value with
          | .U8 fv =>
            match fv with
            | [] => none
            | x :: _ =>
              if x ≠ 0 then
                some { entry with value_more_readable :=
                  (entry.value_more_readable ++ " below sea level") }
              else
                some entry
          | _ => some entry
        | none => some entry
    | .GPSDestLatitude =>
        some { entry with value_more_readable :=
          (postprocess_entry entry.value_more_readable entries ExifTag.GPSDestLatitudeRef " ") }
    | .GPSDestLongitude =>
        some { entry with value_more_readable :=
          (postprocess_entry entry.value_more_readable entries ExifTag.GPSDestLongitudeRef " ") }
    | .GPSDestDistance =>
        some { entry with value_more_readable :=
          (postprocess_entry entry.value_more_readable entries ExifTag.GPSDestDistanceRef " ") }
    | .GPSSpeed =>
        some { entry with value_more_readable :=
          (postprocess_entry entry.value_more_readable entries ExifTag.GPSSpeedRef " ") }
    | _ => some entry
  | _ => some entry

end Post

/-! ## Observers used to state the claims -/

/-- Observer: the ten fixed-width numeric formats of the tag value decoder
(every format except Ascii, Undefined and Unknown). -/
def IfdFormat.isFixedWidthNumeric : IfdFormat → Bool
  | .U8 | .I8 | .U16 | .I16 | .U32 | .I32 | .F32 | .F64 | .URational | .IRational => true
  | _ => false

/-- Observer: number of elements of an array tag value (none for the
string, blob and error variants). -/
def TagValue.arrayLen : TagValue → Option Nat
  | .U8 v => some v.length
  | .U16 v => some v.length
  | .U32 v => some v.length
  | .I8 v => some v.length
  | .I16 v => some v.length
  | .I32 v => some v.length
  | .F32 v => some v.length
  | .F64 v => some v.length
  | .URational v => some v.length
  | .IRational v => some v.length
  | _ => none

/-- Observer: the fixed-width format corresponding to an array tag value
variant (none for the string, blob and error variants). -/
def TagValue.variantFormat : TagValue → Option IfdFormat
  | .U8 _ => some .U8
  | .U16 _ => some .U16
  | .U32 _ => some .U32
  | .I8 _ => some .I8
  | .I16 _ => some .I16
  | .I32 _ => some .I32
  | .F32 _ => some .F32
  | .F64 _ => some .F64
  | .URational _ => some .URational
  | .IRational _ => some .IRational
  | _ => none

/-- Observer: the tag codes carried by a non-catch-all registry row (the
match arms of `tag_to_exif`, in source order). -/
def knownTagCodes : List Nat :=
  [0x010e, 0x010f, 0x013c, 0x0110, 0x0112, 0x011a, 0x011b, 0x0128, 0x0131, 0x0132,
   0x013e, 0x013f, 0x0211, 0x0214, 0x8298, 0x8769, 0x8825, 0x829a, 0x829d, 0x8822,
   0x8824, 0x8827, 0x8828, 0x9000, 0x9003, 0x9004, 0x9201, 0x9202, 0x9203, 0x9204,
   0x9205, 0x9206, 0x9207, 0x9208, 0x9209, 0x920a, 0x9214, 0x927c, 0x9286, 0xa000,
   0xa001, 0xa004, 0xa20b, 0xa20e, 0xa20f, 0xa210, 0xa214, 0xa215, 0xa217, 0xa300,
   0xa301, 0xa302, 0xa401, 0xa402, 0xa403, 0xa404, 0xa405, 0xa406, 0xa407, 0xa408,
   0xa409, 0xa40a, 0xa432, 0xa433, 0xa434, 0xa40b, 0xa40c, 0xa420,
   0x0, 0x1, 0x2, 0x3, 0x4, 0x5, 0x6, 0x7, 0x8, 0x9, 0xa, 0xb, 0xc, 0xd, 0xe, 0xf,
   0x10, 0x11, 0x12, 0x13, 0x14, 0x15, 0x16, 0x17, 0x18, 0x19, 0x1a, 0x1b, 0x1c,
   0x1d, 0x1e]

/-- Observer: the sibling tag a postprocessed tag depends on, per the match
arms of `exif_postprocessing` (none for tags outside the fixed set). -/
def Post.requiredSibling : Post.IfdTag → Option ExifTag
  | .Exif .XResolution | .Exif .YResolution => some .ResolutionUnit
  | .Exif .FocalPlaneXResolution | .Exif .FocalPlaneYResolution =>
      some .FocalPlaneResolutionUnit
  | .Exif .GPSLatitude => some .GPSLatitudeRef
  | .Exif .GPSLongitude => some .GPSLongitudeRef
  | .Exif .GPSAltitude => some .GPSAltitudeRef
  | .Exif .GPSDestLatitude => some .GPSDestLatitudeRef
  | .Exif .GPSDestLongitude => some .GPSDestLongitudeRef
  | .Exif .GPSDestDistance => some .GPSDestDistanceRef
  | .Exif .GPSSpeed => some .GPSSpeedRef
  | _ => none

/-- Observer: the TIFF magic-byte test of `detect_type`, exactly the byte
comparisons the source performs (little-endian or big-endian signature). -/
def tiff_signature (c : List Nat) : Prop :=
  (c.getD 0 0 = 73 ∧ c.getD 1 0 = 73 ∧ c.getD 2 0 = 42 ∧ c.getD 3 0 = 0) ∨
  (c.getD 0 0 = 77 ∧ c.getD 1 0 = 77 ∧ c.getD 2 0 = 0 ∧ c.getD 3 0 = 42)

instance (c : List Nat) : Decidable (tiff_signature c) := by
  unfold tiff_signature; infer_instance

/-- Observer: the JPEG magic-byte test of `detect_type` (either preamble
variant), exactly the byte comparisons the source performs. -/
def jpeg_signature (c : List Nat) : Prop :=
  (c.getD 0 0 = 0xff ∧ c.getD 1 0 = 0xd8 ∧ c.getD 2 0 = 0xff ∧
   c.getD 6 0 = 74 ∧ c.getD 7 0 = 70 ∧ c.getD 8 0 = 73 ∧ c.getD 9 0 = 70 ∧
   c.getD 10 0 = 0) ∨
  (c.getD 0 0 = 0xff ∧ c.getD 1 0 = 0xd8 ∧ c.getD 2 0 = 0xff ∧
   c.getD 6 0 = 69 ∧ c.getD 7 0 = 120 ∧ c.getD 8 0 = 105 ∧ c.getD 9 0 = 102 ∧
   c.getD 10 0 = 0)

instance (c : List Nat) : Decidable (jpeg_signature c) := by
  unfold jpeg_signature; infer_instance

/-! ## Helper lemmas -/

/-- Length of the generic array reader: exactly `n` elements. -/
theorem read_array_length (stride : Nat) (rd : List Nat → α) :
    ∀ (n offset : Nat) (raw : List Nat), (read_array stride rd n offset raw).length = n
  | 0, _, _ => rfl
  | n + 1, offset, raw => by
      simp [read_array, read_array_length stride rd n]

/-- Trim length is bounded by its argument. -/
theorem ascii_trim_len_le (data : List Nat) : ∀ t, ascii_trim_len data t ≤ t
  | 0 => Nat.le_refl 0
  | t + 1 => by
      unfold ascii_trim_len
      split
      · exact Nat.le_trans (ascii_trim_len_le data t) (Nat.le_succ t)
      · exact Nat.le_refl (t + 1)

/-- Trim length only looks at the elements below its argument. -/
theorem ascii_trim_len_congr (l l2 : List Nat) :
    ∀ t, (∀ i, i < t → l.getD i 0 = l2.getD i 0) →
      ascii_trim_len l t = ascii_trim_len l2 t
  | 0, _ => rfl
  | t + 1, h => by
      unfold ascii_trim_len
      rw [h t (Nat.lt_succ_self t)]
      split
      · exact ascii_trim_len_congr l l2 t (fun i hi => h i (Nat.lt_succ_of_lt hi))
      · rfl

/-- Appending trailing zero bytes does not change the trim length. -/
theorem ascii_trim_len_append_zeros (data : List Nat) :
    ∀ N, ascii_trim_len (data ++ List.replicate N 0) (data.length + N) =
      ascii_trim_len data data.length
  | 0 => by
      apply ascii_trim_len_congr
      intro i _
      simp
  | N + 1 => by
      have hidx : (data ++ List.replicate (N + 1) 0).getD (data.length + N) 0 = 0 := by
        rw [List.getD_eq_getElem?_getD, List.getElem?_append_right (by omega)]
        simp
      have unfold1 : ∀ (l : List Nat) (t : Nat),
          ascii_trim_len l (t + 1) = if l.getD t 0 = 0 then ascii_trim_len l t else t + 1 :=
        fun _ _ => rfl
      have hstep : ascii_trim_len (data ++ List.replicate (N + 1) 0) (data.length + (N + 1)) =
          ascii_trim_len (data ++ List.replicate (N + 1) 0) (data.length + N) := by
        show ascii_trim_len _ ((data.length + N) + 1) = _
        rw [unfold1, hidx]
        simp
      have hcongr : ascii_trim_len (data ++ List.replicate (N + 1) 0) (data.length + N) =
          ascii_trim_len (data ++ List.replicate N 0) (data.length + N) := by
        apply ascii_trim_len_congr
        intro i hi
        rcases Nat.lt_or_ge i data.length with hlt | hge
        · rw [List.getD_eq_getElem?_getD, List.getD_eq_getElem?_getD,
            List.getElem?_append_left hlt, List.getElem?_append_left hlt]
        · rw [List.getD_eq_getElem?_getD, List.getD_eq_getElem?_getD,
            List.getElem?_append_right hge, List.getElem?_append_right hge]
          simp only [List.getElem?_replicate]
          have h1 : i - data.length < N + 1 := by omega
          have h2 : i - data.length < N := by omega
          simp [h1, h2]
      rw [hstep, hcongr, ascii_trim_len_append_zeros data N]

/-- C1: the tag value decoder is total on malformed lengths: for every IFD
entry with a fixed-width numeric format (U8, I8, U16, I16, U32, I32, F32,
F64, URational, IRational) whose raw data length is strictly below the
declared count times the element size of the format (declared count at
least 1), decoding returns the `Invalid` variant carrying the raw bytes,
the endianness flag, the declared format code and the declared count (the
crude string is "Invalid"); the decoder is a total function, so it neither
panics nor silently truncates. -/
theorem C1_short_data_yields_invalid (f : IfdEntry)
    (hfw : f.format.isFixedWidthNumeric = true)
    (hc : 1 ≤ f.count)
    (hlen : f.data.length < f.count * f.format.size) :
    tag_value_new f = (TagValue.Invalid f.data f.le f.format.code f.count, "Invalid") := by
  obtain ⟨tag, format, count, data, ifdd, extd, le⟩ := f
  cases format <;>
    simp_all [tag_value_new, IfdFormat.isFixedWidthNumeric, IfdFormat.size, IfdFormat.code]

/-- Witness for C1 at a concrete entry: format U16, declared count 3,
three raw bytes (needs six). -/
theorem C1_witness :
    tag_value_new ⟨0x112, .U16, 3, [1, 2, 3], [], [], true⟩ =
      (TagValue.Invalid [1, 2, 3] true 3 3, "Invalid") :=
  C1_short_data_yields_invalid ⟨0x112, .U16, 3, [1, 2, 3], [], [], true⟩
    (by decide) (by decide) (by decide)

/-- Counterexample for C4: a U8 entry with declared count 1 and a 4-byte
inline payload decodes to a U8 array with all four payload bytes, not
exactly one element — the U8 arm of the decoder copies the whole payload. -/
theorem C4_counterexample :
    (tag_value_new ⟨0, .U8, 1, [7, 8, 9, 10], [], [], true⟩).1 = TagValue.U8 [7, 8, 9, 10] ∧
    TagValue.arrayLen (tag_value_new ⟨0, .U8, 1, [7, 8, 9, 10], [], [], true⟩).1 ≠ some 1 := by
  constructor
  · rfl
  · decide

/-- C4 (amended): for every IFD entry with a fixed-width numeric format
whose raw data length is at least the declared count times the element
size, the decoded value is the array variant matching the format; for
every such format except U8 the vector has exactly the declared count of
elements, while the U8 arm copies the entire raw payload, so its vector
has one element per payload byte (exactly the declared count only when the
payload length equals the count). -/
theorem C4_decoded_count (f : IfdEntry)
    (hfw : f.format.isFixedWidthNumeric = true)
    (hlen : f.count * f.format.size ≤ f.data.length) :
    TagValue.variantFormat (tag_value_new f).1 = some f.format ∧
    (f.format = .U8 → TagValue.arrayLen (tag_value_new f).1 = some f.data.length) ∧
    (f.format ≠ .U8 → TagValue.arrayLen (tag_value_new f).1 = some f.count) := by
  obtain ⟨tag, format, count, data, ifdd, extd, le⟩ := f
  cases format <;>
    simp_all [tag_value_new, IfdFormat.isFixedWidthNumeric, IfdFormat.size,
      TagValue.arrayLen, TagValue.variantFormat,
      read_u16_array, read_i16_array, read_u32_array, read_i32_array,
      read_f32_array, read_f64_array, read_urational_array, read_irational_array,
      read_i8_array] <;>
  · rw [if_neg (by omega)]
    simp [read_array_length]

/-- Witness for C4 at two concrete entries: a U16 entry with count 2 and
four raw bytes decodes to two elements; a U8 entry with count 1 and a
4-byte payload decodes to four elements (the whole payload). -/
theorem C4_witness :
    (TagValue.variantFormat (tag_value_new ⟨0, .U16, 2, [1, 0, 2, 0], [], [], true⟩).1 =
        some .U16 ∧
      TagValue.arrayLen (tag_value_new ⟨0, .U16, 2, [1, 0, 2, 0], [], [], true⟩).1 =
        some 2) ∧
    TagValue.arrayLen (tag_value_new ⟨0, .U8, 1, [7, 8, 9, 10], [], [], true⟩).1 = some 4 :=
  ⟨⟨(C4_decoded_count ⟨0, .U16, 2, [1, 0, 2, 0], [], [], true⟩ (by decide) (by decide)).1,
    (C4_decoded_count ⟨0, .U16, 2, [1, 0, 2, 0], [], [], true⟩ (by decide)
      (by decide)).2.2 (by decide)⟩,
   (C4_decoded_count ⟨0, .U8, 1, [7, 8, 9, 10], [], [], true⟩ (by decide)
      (by decide)).2.1 rfl⟩

/-- C8: Ascii decoding is invariant under trailing NUL padding: for every
entry payload and every number of appended trailing zero bytes, decoding
as format Ascii produces the same tag value and the same crude string (all
trailing NULs are stripped before the lossy UTF-8 conversion), and the
decode is a total function, so it never fails. -/
theorem C8_ascii_trailing_nul_invariant (tag count : Nat) (ifdd extd : List Nat)
    (le : Bool) (data : List Nat) (N : Nat) :
    tag_value_new ⟨tag, .Ascii, count, data ++ List.replicate N 0, ifdd, extd, le⟩ =
      tag_value_new ⟨tag, .Ascii, count, data, ifdd, extd, le⟩ := by
  simp only [tag_value_new]
  have hlen : (data ++ List.replicate N 0).length = data.length + N := by simp
  rw [hlen, ascii_trim_len_append_zeros data N,
    List.take_append_of_le_length (ascii_trim_len_le data data.length)]

/-- Counterexample for C2: the unsigned rational (1,2) has numerator 1 and
denominator greater than 1, so the first branch of the renderer applies
and the raw fraction is printed; the result is "1/2 s", not the claimed
"1/2.0 s". -/
theorem C2_counterexample :
    exposure_time (TagValue.URational [⟨1, 2⟩]) = some "1/2 s" ∧
    exposure_time (TagValue.URational [⟨1, 2⟩]) ≠ some "1/2.0 s" := by
  constructor
  · rfl
  · decide

/-- C2 (amended): the exposure-time renderer produces exactly these
strings: for the unsigned rational (1,125) it returns "1/125 s"; for
(1,2) it returns "1/2 s", because the first branch (numerator 1 and
denominator greater than 1) applies before the value of 0.5 is ever
compared against 0.1 or 1.0; for (3,1), whose value is 3.0, it returns
"3.0 s" — following the policy: if numerator is 1 and the denominator
exceeds 1 render the raw fraction, else if the value is below 0.1 render
the reciprocal with 0 decimals, else if below 1.0 render the reciprocal
with 1 decimal, else render the value with 1 decimal. -/
theorem C2_exposure_time_exact :
    exposure_time (TagValue.URational [⟨1, 125⟩]) = some "1/125 s" ∧
    exposure_time (TagValue.URational [⟨1, 2⟩]) = some "1/2 s" ∧
    exposure_time (TagValue.URational [⟨3, 1⟩]) = some "3.0 s" := by
  refine ⟨rfl, rfl, ?_⟩
  decide

/-- C3: evaluation of the marker scan at the failing input.  The buffer
holds a well-formed 0xFFE1 segment whose six preamble bytes are
69,1,1,1,1,1 (an E followed by garbage, not the Exif preamble); the
inequality tests of the preamble check are combined with AND, so the
mismatch is not detected and the function returns a byte range instead of
the JpegWithoutExif error the claim requires. -/
theorem C3_buggy_preamble_accepted :
    find_embedded_tiff_in_jpeg
        [0xff, 0xd8, 0xff, 0xe1, 0, 10, 69, 1, 1, 1, 1, 1, 0, 0] =
      .ok (12, 2) := by
  rfl

/-- Counterexample for C10: the four-byte buffer holding exactly the TIFF
little-endian signature is shorter than the 11-byte minimum the function
checks first, so it yields the empty string, not "image/tiff" as the
claim ("regardless of the total length") requires. -/
theorem C10_counterexample :
    detect_type [73, 73, 42, 0] = "" ∧
    detect_type [73, 73, 42, 0] ≠ "image/tiff" := by
  constructor
  · rfl
  · decide

/-- C10 (amended): for every buffer of length at least 11 whose first four
bytes are a TIFF signature (little- or big-endian), detect_type returns
"image/tiff"; buffers matching neither the JPEG nor a TIFF magic-byte
test return the empty string. -/
theorem C10_detect_type_magic (c : List Nat) :
    (11 ≤ c.length → tiff_signature c → detect_type c = "image/tiff") ∧
    (¬jpeg_signature c ∧ ¬tiff_signature c → detect_type c = "") := by
  constructor
  · intro hlen hsig
    rcases hsig with ⟨h0, h1, h2, h3⟩ | ⟨h0, h1, h2, h3⟩ <;>
      simp only [List.getD_eq_getElem?_getD] at h0 h1 h2 h3 <;>
      simp [detect_type, h0, h1, h2, h3, Nat.not_lt.mpr hlen]
  · intro ⟨hj, ht⟩
    by_cases hlen : c.length < 11
    · simp [detect_type, hlen]
    · rw [jpeg_signature, not_or] at hj
      rw [tiff_signature, not_or] at ht
      obtain ⟨hj1, hj2⟩ := hj
      obtain ⟨ht1, ht2⟩ := ht
      simp only [detect_type, if_neg hlen]
      rw [if_neg hj1, if_neg hj2, if_neg ht1, if_neg ht2]

/-- Witness for C10 at concrete buffers: an 11-byte TIFF little-endian
buffer is detected as TIFF; a three-byte buffer matching no signature
yields the empty string. -/
theorem C10_witness :
    detect_type [73, 73, 42, 0, 0, 0, 0, 0, 0, 0, 0] = "image/tiff" ∧
    detect_type [1, 2, 3] = "" :=
  ⟨(C10_detect_type_magic [73, 73, 42, 0, 0, 0, 0, 0, 0, 0, 0]).1
      (by decide) (by decide),
   (C10_detect_type_magic [1, 2, 3]).2 (by decide)⟩

/-- Catch-all row of the registry: every code outside the known list maps
to the unrecognized-tag descriptor. -/
theorem tag_to_exif_default (c : Nat) (hc : c ∉ knownTagCodes) :
    tag_to_exif c =
      (.UnknownToMe, "Unknown to this library, or manufacturer-specific",
        "Unknown unit", .Unknown, -1, -1, nop) := by
  simp only [knownTagCodes, List.mem_cons, List.not_mem_nil, or_false, not_or] at hc
  simp only [tag_to_exif, hc, if_false]

/-- C6: the registry lookup is total: it is a total Lean function, so it
returns a descriptor tuple for every tag code without panicking (the
statement quantifies over every natural number, which covers the full
16-bit code space, standard and GPS alike); and every code not matching a
known registry entry yields the catch-all descriptor with tag UnknownToMe,
format Unknown, unbounded count (-1,-1) and the passthrough renderer
`nop`. -/
theorem C6_registry_total_catchall (c : Nat) (hc : c ∉ knownTagCodes) :
    tag_to_exif c =
      (.UnknownToMe, "Unknown to this library, or manufacturer-specific",
        "Unknown unit", .Unknown, -1, -1, nop) :=
  tag_to_exif_default c hc

/-- Witness for C6 at the concrete unknown code 0xbeef. -/
theorem C6_witness :
    tag_to_exif 0xbeef =
      (.UnknownToMe, "Unknown to this library, or manufacturer-specific",
        "Unknown unit", .Unknown, -1, -1, nop) :=
  C6_registry_total_catchall 0xbeef (by decide)

set_option maxRecDepth 10000 in
/-- Internal consistency of the registry, as asserted by the sanity check
at the top of `parse_exif_entry`: for every code whose row is not the
catch-all, the row tag casts back to the code, variable-length bounds
(-1) appear exactly with the Ascii/Undefined/Unknown formats, and Ascii
rows never carry definite bounds.  Hence the panic arm of
`parse_exif_entry` is unreachable. -/
theorem tag_registry_consistent (c : Nat) :
    (tag_to_exif c).1 ≠ ExifTag.UnknownToMe →
    ¬((tag_to_exif c).1.code ≠ c ∨
      ((tag_to_exif c).2.2.2.2.1 = -1 ∧ (tag_to_exif c).2.2.2.1 ≠ .Ascii ∧
       (tag_to_exif c).2.2.2.1 ≠ .Undefined ∧ (tag_to_exif c).2.2.2.1 ≠ .Unknown) ∨
      ((tag_to_exif c).2.2.2.2.1 ≠ -1 ∧ (tag_to_exif c).2.2.2.1 = .Ascii)) := by
  by_cases hc : c ∈ knownTagCodes
  · have hall : ∀ x ∈ knownTagCodes,
        (tag_to_exif x).1 ≠ ExifTag.UnknownToMe →
        ¬((tag_to_exif x).1.code ≠ x ∨
          ((tag_to_exif x).2.2.2.2.1 = -1 ∧ (tag_to_exif x).2.2.2.1 ≠ .Ascii ∧
           (tag_to_exif x).2.2.2.1 ≠ .Undefined ∧ (tag_to_exif x).2.2.2.1 ≠ .Unknown) ∨
          ((tag_to_exif x).2.2.2.2.1 ≠ -1 ∧ (tag_to_exif x).2.2.2.1 = .Ascii)) := by
      decide
    exact hall c hc
  · rw [tag_to_exif_default c hc]
    intro h
    exact absurd rfl h

/-- C5: a single malformed entry never aborts the parse.  First part: for
every raw entry whose tag is known to the registry but whose on-disk
format differs from the expected format, or whose element count (read as
i32, as the source casts it) falls outside the registry bounds,
`parse_exif_entry` still returns an entry — populated with the raw decoded
value and the crude readable string, without the tag-specific rendering.
Second part: whenever the two truncation guards hold and decoding all
resolved entries of the IFD yields a list (no panic), `parse_exif_ifd`
returns Ok with exactly those entries appended — each entry is produced by
`parse_exif_entry` independently, so the remaining well-formed entries of
the same IFD are decoded and rendered normally. -/
theorem C5_malformed_entry_nonfatal :
    (∀ f : IfdEntry,
      (tag_to_exif f.tag).1 ≠ ExifTag.UnknownToMe →
      ((tag_to_exif f.tag).2.2.2.1 ≠ f.format ∨
       ((tag_to_exif f.tag).2.2.2.2.1 ≠ -1 ∧
        (u32_as_i32 f.count < (tag_to_exif f.tag).2.2.2.2.1 ∨
         u32_as_i32 f.count > (tag_to_exif f.tag).2.2.2.2.2.1))) →
      Tiff.parse_exif_entry f = some
        { ifd := f, tag := .UnknownToMe, value := (tag_value_new f).1,
          unit := "Unknown", tag_readable := "Unparsed tag " ++ natToHex f.tag,
          value_readable := (tag_value_new f).2,
          value_more_readable := (tag_value_new f).2 }) ∧
    (∀ (le : Bool) (contents : List Nat) (ioffset : Nat)
        (acc lst : List Tiff.ExifEntry),
      ioffset + 2 ≤ contents.length →
      ioffset + 2 + read_u16 le (contents.drop ioffset) * 12 ≤ contents.length →
      ((Tiff.parse_ifd true le (read_u16 le (contents.drop ioffset))
          ((contents.drop (ioffset + 2)).take
            (read_u16 le (contents.drop ioffset) * 12))).1.map
        (Tiff.copy_data contents)).mapM Tiff.parse_exif_entry = some lst →
      Tiff.parse_exif_ifd le contents ioffset acc = some (.ok (acc ++ lst))) := by
  constructor
  · intro f hknown hbad
    simp only [Tiff.parse_exif_entry]
    rw [if_neg hknown, if_neg (tag_registry_consistent f.tag hknown)]
    by_cases hfmt : (tag_to_exif f.tag).2.2.2.1 ≠ f.format
    · rw [if_pos hfmt]
    · rw [if_neg hfmt]
      rcases hbad with hbad | hcnt
      · exact absurd hbad hfmt
      · rw [if_pos hcnt]
  · intro le contents ioffset acc lst h1 h2 h3
    simp only [Tiff.parse_exif_ifd]
    rw [if_neg (Nat.not_lt.mpr h1), if_neg (Nat.not_lt.mpr h2), h3]
    rfl

/-- Witness for C5 at a concrete little-endian IFD with two entries: a
well-formed Orientation entry (value 6, rendered "Rotated to left") and a
ResolutionUnit entry with declared count 2, outside its registry bounds
1..1 (kept crude, no rendering); the whole IFD parses to Ok with both
entries, and the malformed one alone also decodes to its crude entry. -/
theorem C5_witness :
    Tiff.parse_exif_ifd true
        [2, 0,
         0x12, 0x01, 3, 0, 1, 0, 0, 0, 6, 0, 0, 0,
         0x28, 0x01, 3, 0, 2, 0, 0, 0, 2, 0, 3, 0] 0 [] =
      some (.ok ([] ++
        [⟨⟨0x112, .U16, 1, [6, 0, 0, 0], [6, 0, 0, 0], [], true⟩, .Orientation,
          TagValue.U16 [6], "none", "Orientation", "6", "Rotated to left"⟩,
         ⟨⟨0x128, .U16, 2, [2, 0, 3, 0], [2, 0, 3, 0], [], true⟩, .UnknownToMe,
          TagValue.U16 [2, 3], "Unknown", "Unparsed tag 128", "2, 3", "2, 3"⟩])) ∧
    Tiff.parse_exif_entry ⟨0x128, .U16, 2, [2, 0, 3, 0], [2, 0, 3, 0], [], true⟩ =
      some ⟨⟨0x128, .U16, 2, [2, 0, 3, 0], [2, 0, 3, 0], [], true⟩, .UnknownToMe,
        TagValue.U16 [2, 3], "Unknown", "Unparsed tag 128", "2, 3", "2, 3"⟩ :=
  ⟨C5_malformed_entry_nonfatal.2 true
      [2, 0,
       0x12, 0x01, 3, 0, 1, 0, 0, 0, 6, 0, 0, 0,
       0x28, 0x01, 3, 0, 2, 0, 0, 0, 2, 0, 3, 0] 0 []
      [⟨⟨0x112, .U16, 1, [6, 0, 0, 0], [6, 0, 0, 0], [], true⟩, .Orientation,
        TagValue.U16 [6], "none", "Orientation", "6", "Rotated to left"⟩,
       ⟨⟨0x128, .U16, 2, [2, 0, 3, 0], [2, 0, 3, 0], [], true⟩, .UnknownToMe,
        TagValue.U16 [2, 3], "Unknown", "Unparsed tag 128", "2, 3", "2, 3"⟩]
      (by decide) (by decide) (by decide),
   C5_malformed_entry_nonfatal.1
      ⟨0x128, .U16, 2, [2, 0, 3, 0], [2, 0, 3, 0], [], true⟩
      (by decide) (by decide)⟩

/-- The postprocessing string update only ever appends: whatever the
sibling lookup yields, the new readable string is the old one followed by
some suffix. -/
theorem postprocess_entry_append (vmr : String) (entries : List Post.ExifEntry)
    (tag : ExifTag) (jt : String) :
    ∃ t, Post.postprocess_entry vmr entries tag jt = vmr ++ t := by
  unfold Post.postprocess_entry
  cases h : Post.value_more_readable_for_tag tag entries with
  | none => exact ⟨"", (String.append_empty vmr).symm⟩
  | some o => exact ⟨jt ++ o, String.append_assoc vmr jt o⟩

/-- When the sibling is absent the string update is the identity. -/
theorem postprocess_entry_absent (vmr : String) (entries : List Post.ExifEntry)
    (tag : ExifTag) (jt : String)
    (h : Post.entry_for_tag tag entries = none) :
    Post.postprocess_entry vmr entries tag jt = vmr := by
  unfold Post.postprocess_entry Post.value_more_readable_for_tag
  rw [h]
  rfl

/-- C7: the postprocessor only decorates the readable string.  First part:
whenever `exif_postprocessing` returns an entry, namespace, tag and
decoded value are unchanged and the readable string is the original one
followed by some (possibly empty) suffix.  Second part: when the sibling
tag the postprocessed tag depends on (ResolutionUnit,
FocalPlaneResolutionUnit, the GPS *Ref tags, or GPSAltitudeRef) is absent
from the entry list — and likewise for tags outside the postprocessed set
— the entry is returned exactly as produced by its own renderer. -/
theorem C7_postprocessing_frame :
    (∀ (entry : Post.ExifEntry) (entries : List Post.ExifEntry) (r : Post.ExifEntry),
      Post.exif_postprocessing entry entries = some r →
      r.nspace = entry.nspace ∧ r.tag = entry.tag ∧ r.value = entry.value ∧
      ∃ t, r.value_more_readable = entry.value_more_readable ++ t) ∧
    (∀ (entry : Post.ExifEntry) (entries : List Post.ExifEntry),
      (∀ s, Post.requiredSibling entry.tag = some s →
        Post.entry_for_tag s entries = none) →
      Post.exif_postprocessing entry entries = some entry) := by
  constructor
  · intro entry entries r h
    obtain ⟨ns, tg, val, vmr⟩ := entry
    simp only [Post.exif_postprocessing] at h
    cases tg with
    | Unknown v =>
      rcases Option.some.inj h with rfl
      exact ⟨rfl, rfl, rfl, "", (String.append_empty vmr).symm⟩
    | Exif t =>
      cases t <;> dsimp only at h <;>
        first
        | (rcases Option.some.inj h with rfl
           exact ⟨rfl, rfl, rfl, postprocess_entry_append vmr entries _ _⟩)
        | (rcases Option.some.inj h with rfl
           exact ⟨rfl, rfl, rfl, "", (String.append_empty vmr).symm⟩)
        | (rcases hfind : Post.entry_for_tag ExifTag.GPSAltitudeRef entries with _ | f <;>
             rw [hfind] at h <;> dsimp only at h
           · rcases Option.some.inj h with rfl
             exact ⟨rfl, rfl, rfl, "", (String.append_empty vmr).symm⟩
           · cases hval : f.value <;> rw [hval] at h <;> dsimp only at h <;>
               first
               | (rcases Option.some.inj h with rfl
                  exact ⟨rfl, rfl, rfl, "", (String.append_empty vmr).symm⟩)
               | (rename_i fv
                  cases fv with
                  | nil => exact absurd h (by simp)
                  | cons x rest =>
                    dsimp only at h
                    split at h
                    · rcases Option.some.inj h with rfl
                      exact ⟨rfl, rfl, rfl, " below sea level", rfl⟩
                    · rcases Option.some.inj h with rfl
                      exact ⟨rfl, rfl, rfl, "", (String.append_empty vmr).symm⟩))
  · intro entry entries habs
    obtain ⟨ns, tg, val, vmr⟩ := entry
    simp only [Post.exif_postprocessing]
    cases tg with
    | Unknown v => rfl
    | Exif t =>
      cases t <;> dsimp only <;>
        first
        | rfl
        | (rw [postprocess_entry_absent vmr entries _ _ (habs _ rfl)])
        | (rw [habs _ rfl])

/-- Witness for C7 at concrete entries: an XResolution entry with readable
string "72", postprocessed against a list holding a ResolutionUnit entry
rendered "in", keeps its namespace, tag and value and its string becomes
an extension of "72"; and a GPSLatitude entry postprocessed against an
empty list (sibling GPSLatitudeRef absent) is returned unchanged. -/
theorem C7_witness :
    ((Post.ExifEntry.mk .Standard (.Exif .XResolution) (TagValue.URational [⟨72, 1⟩])
        "72 pixels per in").nspace =
      (Post.ExifEntry.mk .Standard (.Exif .XResolution) (TagValue.URational [⟨72, 1⟩])
        "72").nspace ∧
     (Post.ExifEntry.mk .Standard (.Exif .XResolution) (TagValue.URational [⟨72, 1⟩])
        "72 pixels per in").tag =
      (Post.ExifEntry.mk .Standard (.Exif .XResolution) (TagValue.URational [⟨72, 1⟩])
        "72").tag ∧
     (Post.ExifEntry.mk .Standard (.Exif .XResolution) (TagValue.URational [⟨72, 1⟩])
        "72 pixels per in").value =
      (Post.ExifEntry.mk .Standard (.Exif .XResolution) (TagValue.URational [⟨72, 1⟩])
        "72").value ∧
     ∃ t, (Post.ExifEntry.mk .Standard (.Exif .XResolution) (TagValue.URational [⟨72, 1⟩])
        "72 pixels per in").value_more_readable =
      (Post.ExifEntry.mk .Standard (.Exif .XResolution) (TagValue.URational [⟨72, 1⟩])
        "72").value_more_readable ++ t) ∧
    Post.exif_postprocessing
        ⟨.Standard, .Exif .GPSLatitude, TagValue.URational [⟨40, 1⟩], "40"⟩ [] =
      some ⟨.Standard, .Exif .GPSLatitude, TagValue.URational [⟨40, 1⟩], "40"⟩ :=
  ⟨C7_postprocessing_frame.1
      ⟨.Standard, .Exif .XResolution, TagValue.URational [⟨72, 1⟩], "72"⟩
      [⟨.Standard, .Exif .XResolution, TagValue.URational [⟨72, 1⟩], "72"⟩,
       ⟨.Standard, .Exif .ResolutionUnit, TagValue.U16 [2], "in"⟩]
      ⟨.Standard, .Exif .XResolution, TagValue.URational [⟨72, 1⟩], "72 pixels per in"⟩
      (by decide),
   C7_postprocessing_frame.2
      ⟨.Standard, .Exif .GPSLatitude, TagValue.URational [⟨40, 1⟩], "40"⟩ []
      (fun s hs => by
        obtain rfl := (Option.some.inj hs).symm
        rfl)⟩
